import Mathlib

/-!
Verification development for the style-assets service
(src/services/font_service.py, color_scheme_service.py,
template_service.py, asset_manager.py).

The Python services are shallowly embedded: dictionaries become
insertion-ordered association lists (Python 3.7+ dict semantics), the
registry objects become explicit state records, and methods that mutate
`self` become functions from registry state to (result, registry state).
Filesystem access (`os.path.exists`, `os.path.getsize`) and JSON file
parsing are passed in as explicit environment parameters; wall-clock
timestamps and file writes do not influence any modelled result and are
omitted, as noted at each definition.
-/

namespace StyleAssets

/-! ## Python string primitives

Python `str.lower()` applied characterwise (the names in this service are
ASCII, where `Char.toLower` agrees with Python), and `str.replace(a, b)`
for single-character patterns, which is a characterwise map. -/

def pyLower (s : List Char) : List Char :=
  s.map Char.toLower

def pyReplace (s : List Char) (a b : Char) : List Char :=
  s.map fun c => if c = a then b else c

/-- Python `str.lower().endswith(suffix)` for one suffix, over char lists. -/
def pyEndsWith (s suffix : List Char) : Bool :=
  suffix.isSuffixOf s

/-! ## Identifier normalization

`font_service.py` lines 373-375, `color_scheme_service.py` lines 531-533,
`template_service.py` lines 810-812; each is
`name.lower().replace(' ', '_').replace('-', '_')`. -/

/-- `FontService._generate_font_id` (font_service.py:373-375). -/
def _generate_font_id (font_name : String) : String :=
  String.mk (pyReplace (pyReplace (pyLower font_name.data) ' ' '_') '-' '_')

/-- `ColorSchemeService._generate_scheme_id` (color_scheme_service.py:531-533). -/
def _generate_scheme_id (scheme_name : String) : String :=
  String.mk (pyReplace (pyReplace (pyLower scheme_name.data) ' ' '_') '-' '_')

/-- `TemplateService._generate_template_id` (template_service.py:810-812). -/
def _generate_template_id (template_name : String) : String :=
  String.mk (pyReplace (pyReplace (pyLower template_name.data) ' ' '_') '-' '_')

/-- The single-pass characterwise normalization the spec describes:
lowercase, then send spaces and hyphens to underscore. -/
def specNormalizeChar (c : Char) : Char :=
  if c.toLower = ' ' ∨ c.toLower = '-' then '_' else c.toLower

/-- Spec-side id derivation: the name lowercased with every space and
hyphen replaced by underscore. -/
def specDeriveId (name : String) : String :=
  String.mk (name.data.map specNormalizeChar)

/-- Two names differ only in letter case or in spaces-versus-hyphens:
same length, and at every position the characters agree up to case or
are both in the set `{space, hyphen}`. -/
def CaseSpaceHyphenEquiv (s t : String) : Prop :=
  List.Forall₂
    (fun a b =>
      a.toLower = b.toLower ∨ ((a = ' ' ∨ a = '-') ∧ (b = ' ' ∨ b = '-')))
    s.data t.data

/-! ## Insertion-ordered dictionaries

Python 3.7+ `dict` preserves insertion order; assignment to an existing
key keeps its position, assignment to a fresh key appends.  Modelled as
association lists with unique keys. -/

/-- `k in d`. -/
def dictContains (m : List (String × α)) (k : String) : Bool :=
  m.any fun p => p.1 == k

/-- `d.get(k)` / `d[k]` as an option: first binding of `k`. -/
def dictGet? : List (String × α) → String → Option α
  | [], _ => none
  | p :: rest, k => if p.1 == k then some p.2 else dictGet? rest k

/-- `d[k] = v`: overwrite in place, or append when `k` is fresh. -/
def dictSet : List (String × α) → String → α → List (String × α)
  | [], k, v => [(k, v)]
  | p :: rest, k, v =>
    if p.1 == k then (k, v) :: rest else p :: dictSet rest k v

/-- In-place update of the value stored under key `k` (our dicts keep
keys unique, so at most one binding changes). -/
def dictModifyAt (m : List (String × α)) (k : String) (f : α → α) :
    List (String × α) :=
  m.map fun p => if p.1 == k then (p.1, f p.2) else p

/-- `d[k].append(x)` on a dict of lists whose keys are unique. -/
def dictAppendAt (m : List (String × List String)) (k : String) (x : String) :
    List (String × List String) :=
  dictModifyAt m k (· ++ [x])

/-- The category-index update shared by the two create operations
(font_service.py:294-299, color_scheme_service.py:291-296): append the
new id to an existing category's list, or install a brand-new
single-element list for an unseen category. -/
def updateCategories (cats : List (String × List String)) (category asset_id : String) :
    List (String × List String) :=
  if dictContains cats category then dictAppendAt cats category asset_id
  else dictSet cats category [asset_id]

/-! ## FontService (font_service.py)

The registry object `self.font_registry` has entries `fonts` (id →
record) and `categories` (category → list of ids); its `metadata` entry
(`total_fonts`, a wall-clock `last_updated`) duplicates derivable data
and is omitted.  The `registered` wall-clock timestamp of each record is
likewise omitted. -/

structure FontRecord where
  id : String
  name : String
  family : String
  category : String
  weight : String
  style : String
  formats : List String
  usage : String
  compatibility : List String
  file_size : String
  character_set : String
  license : String
  status : String
  download_count : Nat
deriving Repr, DecidableEq

structure FontRegistry where
  fonts : List (String × FontRecord)
  categories : List (String × List String)
deriving Repr, DecidableEq

/-- The fields of one entry of `default_fonts`
(font_service.py:42-108), before registration adds id/status/counter. -/
structure FontSeed where
  name : String
  family : String
  category : String
  weight : String
  style : String
  formats : List String
  usage : String
  compatibility : List String
  file_size : String
  character_set : String
  license : String
deriving Repr, DecidableEq

/-- `_initialize_font_registry` (font_service.py:24-38). -/
def initialFontRegistry : FontRegistry :=
  { fonts := [],
    categories :=
      [("serif", []), ("sans_serif", []), ("monospace", []), ("decorative", [])] }

/-- `default_fonts` (font_service.py:42-108). -/
def default_fonts : List FontSeed :=
  [ { name := "Times New Roman", family := "Times", category := "serif",
      weight := "normal", style := "normal", formats := ["ttf"],
      usage := "Academic papers, formal documents",
      compatibility := ["ieee", "nature", "apa"], file_size := "1.2MB",
      character_set := "latin_extended", license := "commercial" },
    { name := "Arial", family := "Arial", category := "sans_serif",
      weight := "normal", style := "normal", formats := ["ttf"],
      usage := "Modern documents, presentations",
      compatibility := ["modern", "web"], file_size := "1.1MB",
      character_set := "latin_extended", license := "commercial" },
    { name := "Helvetica", family := "Helvetica", category := "sans_serif",
      weight := "normal", style := "normal", formats := ["ttf", "otf"],
      usage := "Professional documents, branding",
      compatibility := ["modern", "corporate"], file_size := "1.3MB",
      character_set := "latin_extended", license := "commercial" },
    { name := "Courier New", family := "Courier", category := "monospace",
      weight := "normal", style := "normal", formats := ["ttf"],
      usage := "Code blocks, technical documentation",
      compatibility := ["technical", "code"], file_size := "0.8MB",
      character_set := "latin_basic", license := "commercial" },
    { name := "Georgia", family := "Georgia", category := "serif",
      weight := "normal", style := "normal", formats := ["ttf"],
      usage := "Web content, readable documents",
      compatibility := ["web", "modern"], file_size := "1.0MB",
      character_set := "latin_extended", license := "commercial" } ]

/-- One iteration of the registration loop of `_register_default_fonts`
(font_service.py:110-123): install the record and append its id to the
category index when the category is one of the built-in ones. -/
def registerDefaultFont (reg : FontRegistry) (font_info : FontSeed) : FontRegistry :=
  let font_id := _generate_font_id font_info.name
  { fonts := dictSet reg.fonts font_id
      { id := font_id, name := font_info.name, family := font_info.family,
        category := font_info.category, weight := font_info.weight,
        style := font_info.style, formats := font_info.formats,
        usage := font_info.usage, compatibility := font_info.compatibility,
        file_size := font_info.file_size, character_set := font_info.character_set,
        license := font_info.license, status := "available", download_count := 0 },
    categories :=
      if dictContains reg.categories font_info.category then
        dictAppendAt reg.categories font_info.category font_id
      else reg.categories }

/-- The registry as built by `FontService.__init__`:
`_initialize_font_registry` then `_register_default_fonts`. -/
def defaultFontRegistry : FontRegistry :=
  default_fonts.foldl registerDefaultFont initialFontRegistry

/-- Caller-supplied descriptor for `register_custom_font`: a JSON dict,
each field optional. -/
structure FontData where
  name : Option String := none
  family : Option String := none
  category : Option String := none
  weight : Option String := none
  style : Option String := none
  formats : Option (List String) := none
  usage : Option String := none
  compatibility : Option (List String) := none
  file_size : Option String := none
  character_set : Option String := none
  license : Option String := none
deriving Repr, DecidableEq

/-- The response dict of the two create operations: `success` plus,
depending on the branch, `error` or `asset_id` (`font_id` /
`scheme_id` in the source) and `message`.  `timestamp` omitted. -/
structure CreateResponse where
  success : Bool
  error : Option String := none
  asset_id : Option String := none
  message : Option String := none
  details : Option (List String) := none
deriving Repr, DecidableEq

/-- `register_custom_font` (font_service.py:253-310).  The source's
sequential required-field checks, collision check, record construction
with defaults, and the two index updates, with `self` mutation made
explicit as state passing. -/
def register_custom_font (reg : FontRegistry) (font_data : FontData) :
    CreateResponse × FontRegistry :=
  match font_data.name with
  | none => ({ success := false, error := some "Missing required field: name" }, reg)
  | some name =>
  match font_data.family with
  | none => ({ success := false, error := some "Missing required field: family" }, reg)
  | some family =>
  match font_data.category with
  | none => ({ success := false, error := some "Missing required field: category" }, reg)
  | some category =>
    let font_id := _generate_font_id name
    if dictContains reg.fonts font_id then
      ({ success := false, error := some ("Font " ++ name ++ " already exists") }, reg)
    else
      let font_info : FontRecord :=
        { id := font_id, name := name, family := family, category := category,
          weight := font_data.weight.getD "normal",
          style := font_data.style.getD "normal",
          formats := font_data.formats.getD ["ttf"],
          usage := font_data.usage.getD "General purpose",
          compatibility := font_data.compatibility.getD [],
          file_size := font_data.file_size.getD "Unknown",
          character_set := font_data.character_set.getD "latin_basic",
          license := font_data.license.getD "custom",
          status := "available", download_count := 0 }
      let fonts' := dictSet reg.fonts font_id font_info
      let categories' := updateCategories reg.categories category font_id
      ({ success := true, asset_id := some font_id,
         message := some ("Font " ++ name ++ " registered successfully") },
       { fonts := fonts', categories := categories' })

/-- The value returned by `get_font_details` on a hit: a copy of the
record plus a `metadata` sub-dict with derived URLs (`last_accessed`
timestamp omitted). -/
structure FontDetails where
  info : FontRecord
  download_url : String
  preview_url : String
deriving Repr, DecidableEq

/-- `get_font_details` (font_service.py:160-176).  Note: the source
copies the record and attaches metadata but never touches
`download_count` (that counter is only incremented in
`get_font_path`), so the registry comes back unchanged on both the hit
and the miss path. -/
def get_font_details (reg : FontRegistry) (font_name : String) :
    Option FontDetails × FontRegistry :=
  let font_id := _generate_font_id font_name
  match dictGet? reg.fonts font_id with
  | some font_info =>
      (some { info := font_info,
              download_url := "/api/fonts/" ++ font_name ++ "/download",
              preview_url := "/api/fonts/" ++ font_name ++ "/preview" }, reg)
  | none => (none, reg)

/-! ## Color value validation (color_scheme_service.py:470-491)

The three anchored patterns of `_validate_colors`:
`^#([A-Fa-f0-9]{6}|[A-Fa-f0-9]{3})$`,
`^rgb\(\s*\d+\s*,\s*\d+\s*,\s*\d+\s*\)$`,
`^rgba\(\s*\d+\s*,\s*\d+\s*,\s*\d+\s*,\s*[\d.]+\s*\)$`,
hand-compiled to deterministic scanners (no alternative in these
patterns needs backtracking: `\d+`/`[\d.]+` are followed by characters
outside their own class).  Python's `$` also matches just before one
trailing newline, which `pyDollarMatch` reproduces. -/

/-- The regex class `[A-Fa-f0-9]`. -/
def isRegexHexDigit (c : Char) : Bool :=
  c.isDigit || (decide ('a' ≤ c) && decide (c ≤ 'f')) ||
    (decide ('A' ≤ c) && decide (c ≤ 'F'))

/-- Python `re` class `\s` on ASCII input: space, tab, LF, CR, FF, VT. -/
def isPySpace (c : Char) : Bool :=
  c == ' ' || c == '\t' || c == '\n' || c == '\x0d' || c == '\x0c' || c == '\x0b'

/-- Consume `\s*`. -/
def dropPySpaces (s : List Char) : List Char :=
  s.dropWhile isPySpace

/-- Consume `\d+` (at least one ASCII digit), greedily. -/
def consumeDigits : List Char → Option (List Char)
  | c :: rest => if c.isDigit then some (rest.dropWhile Char.isDigit) else none
  | [] => none

/-- Consume `[\d.]+` (at least one digit or dot), greedily. -/
def consumeNumDots : List Char → Option (List Char)
  | c :: rest =>
    if c.isDigit || c == '.' then
      some (rest.dropWhile fun c => c.isDigit || c == '.')
    else none
  | [] => none

/-- Consume `\s*\d+\s*`. -/
def consumeSpacedDigits (s : List Char) : Option (List Char) :=
  (consumeDigits (dropPySpaces s)).map dropPySpaces

/-- Consume one expected literal character. -/
def expectChar (c : Char) : List Char → Option (List Char)
  | x :: rest => if x == c then some rest else none
  | [] => none

/-- `#([A-Fa-f0-9]{6}|[A-Fa-f0-9]{3})` against the whole input. -/
def hexCore (s : List Char) : Bool :=
  match s with
  | '#' :: rest =>
    (rest.length == 6 || rest.length == 3) && rest.all isRegexHexDigit
  | _ => false

/-- `rgb\(\s*\d+\s*,\s*\d+\s*,\s*\d+\s*\)` against the whole input. -/
def rgbCore (s : List Char) : Bool :=
  match s with
  | 'r' :: 'g' :: 'b' :: '(' :: rest =>
    (do
      let r1 ← consumeSpacedDigits rest
      let r2 ← expectChar ',' r1
      let r3 ← consumeSpacedDigits r2
      let r4 ← expectChar ',' r3
      let r5 ← consumeSpacedDigits r4
      let r6 ← expectChar ')' r5
      if r6.isEmpty then some () else none).isSome
  | _ => false

/-- `rgba\(\s*\d+\s*,\s*\d+\s*,\s*\d+\s*,\s*[\d.]+\s*\)` against the
whole input. -/
def rgbaCore (s : List Char) : Bool :=
  match s with
  | 'r' :: 'g' :: 'b' :: 'a' :: '(' :: rest =>
    (do
      let r1 ← consumeSpacedDigits rest
      let r2 ← expectChar ',' r1
      let r3 ← consumeSpacedDigits r2
      let r4 ← expectChar ',' r3
      let r5 ← consumeSpacedDigits r4
      let r6 ← expectChar ',' r5
      let r7 ← consumeNumDots (dropPySpaces r6)
      let r8 ← expectChar ')' (dropPySpaces r7)
      if r8.isEmpty then some () else none).isSome
  | _ => false

/-- `re.match` of an anchored `^...$` pattern, where `$` matches at the
end of the string or just before one trailing newline. -/
def pyDollarMatch (core : List Char → Bool) (s : List Char) : Bool :=
  core s || (s.getLast? == some '\n' && core s.dropLast)

/-- One color value matches one of the three patterns tried by
`_validate_colors` (color_scheme_service.py:483-485). -/
def colorFormatOk (color_value : String) : Bool :=
  pyDollarMatch hexCore color_value.data ||
    pyDollarMatch rgbCore color_value.data ||
    pyDollarMatch rgbaCore color_value.data

/-- Result shape of `_validate_colors`. -/
structure ColorsValidation where
  valid : Bool
  errors : List String
deriving Repr, DecidableEq

/-- `_validate_colors` (color_scheme_service.py:470-491).  The source's
loop appends one error per non-matching entry and latches `valid` to
`False`; structural recursion over the insertion-ordered `colors` dict
produces the same errors in the same order. -/
def _validate_colors : List (String × String) → ColorsValidation
  | [] => { valid := true, errors := [] }
  | (color_name, color_value) :: rest =>
    let tail := _validate_colors rest
    if colorFormatOk color_value then tail
    else
      { valid := false,
        errors :=
          ("Invalid color format for " ++ color_name ++ ": " ++ color_value)
            :: tail.errors }

/-! ## ColorSchemeService (color_scheme_service.py)

As for fonts: `metadata` (`total_schemes`, wall-clock `last_updated`)
and per-record `created` timestamps are omitted; `_save_scheme_to_file`
writes a JSON file and touches no modelled state, so it drops out. -/

structure Accessibility where
  wcag_aa_compliant : Bool
  contrast_ratio : Rat
deriving Repr, DecidableEq

structure SchemeRecord where
  id : String
  name : String
  category : String
  description : String
  colors : List (String × String)
  usage : String
  compatibility : List String
  accessibility : Accessibility
  status : String
  usage_count : Nat
deriving Repr, DecidableEq

structure SchemeRegistry where
  schemes : List (String × SchemeRecord)
  categories : List (String × List String)
deriving Repr, DecidableEq

/-- The fields of one entry of `default_schemes`
(color_scheme_service.py:42-158). -/
structure SchemeSeed where
  name : String
  category : String
  description : String
  colors : List (String × String)
  usage : String
  compatibility : List String
  accessibility : Accessibility
deriving Repr, DecidableEq

/-- `_initialize_scheme_registry` (color_scheme_service.py:24-38). -/
def initialSchemeRegistry : SchemeRegistry :=
  { schemes := [],
    categories :=
      [("academic", []), ("modern", []), ("corporate", []), ("creative", [])] }

/-- `default_schemes` (color_scheme_service.py:42-158). -/
def default_schemes : List SchemeSeed :=
  [ { name := "Academic Blue", category := "academic",
      description := "Professional blue tones for academic publications",
      colors :=
        [("primary", "#003366"), ("secondary", "#0066CC"), ("accent", "#3399FF"),
         ("background", "#FFFFFF"), ("text", "#000000"), ("text_secondary", "#333333"),
         ("border", "#CCCCCC"), ("highlight", "#FFFF99"), ("error", "#CC0000"),
         ("success", "#006600")],
      usage := "IEEE papers, technical documents",
      compatibility := ["ieee", "technical"],
      accessibility := { wcag_aa_compliant := true, contrast_ratio := 4.5 } },
    { name := "Nature Green", category := "academic",
      description := "Natural green palette for scientific publications",
      colors :=
        [("primary", "#2D5016"), ("secondary", "#4A7C28"), ("accent", "#6FA83B"),
         ("background", "#FFFFFF"), ("text", "#000000"), ("text_secondary", "#2D2D2D"),
         ("border", "#B8D4A5"), ("highlight", "#E8F5E8"), ("error", "#B71C1C"),
         ("success", "#2E7D32")],
      usage := "Nature journal style, environmental studies",
      compatibility := ["nature", "environmental"],
      accessibility := { wcag_aa_compliant := true, contrast_ratio := 4.8 } },
    { name := "Modern Grayscale", category := "modern",
      description := "Clean grayscale palette for contemporary designs",
      colors :=
        [("primary", "#2C2C2C"), ("secondary", "#4A4A4A"), ("accent", "#007ACC"),
         ("background", "#FFFFFF"), ("text", "#1A1A1A"), ("text_secondary", "#666666"),
         ("border", "#E0E0E0"), ("highlight", "#F5F5F5"), ("error", "#E53E3E"),
         ("success", "#38A169")],
      usage := "Modern documents, presentations",
      compatibility := ["modern", "minimal"],
      accessibility := { wcag_aa_compliant := true, contrast_ratio := 7.2 } },
    { name := "Corporate Blue", category := "corporate",
      description := "Professional corporate color scheme",
      colors :=
        [("primary", "#1E3A8A"), ("secondary", "#3B82F6"), ("accent", "#60A5FA"),
         ("background", "#FFFFFF"), ("text", "#111827"), ("text_secondary", "#4B5563"),
         ("border", "#D1D5DB"), ("highlight", "#EBF8FF"), ("error", "#DC2626"),
         ("success", "#059669")],
      usage := "Business reports, corporate documents",
      compatibility := ["corporate", "business"],
      accessibility := { wcag_aa_compliant := true, contrast_ratio := 5.1 } },
    { name := "Creative Palette", category := "creative",
      description := "Vibrant colors for creative projects",
      colors :=
        [("primary", "#7C3AED"), ("secondary", "#A855F7"), ("accent", "#C084FC"),
         ("background", "#FEFEFE"), ("text", "#1F2937"), ("text_secondary", "#374151"),
         ("border", "#E5E7EB"), ("highlight", "#FDF4FF"), ("error", "#F87171"),
         ("success", "#34D399")],
      usage := "Creative presentations, artistic documents",
      compatibility := ["creative", "artistic"],
      accessibility := { wcag_aa_compliant := false, contrast_ratio := 3.8 } } ]

/-- One iteration of the seeding loop of `_create_default_schemes`
(color_scheme_service.py:160-175). -/
def registerDefaultScheme (reg : SchemeRegistry) (scheme_data : SchemeSeed) :
    SchemeRegistry :=
  let scheme_id := _generate_scheme_id scheme_data.name
  { schemes := dictSet reg.schemes scheme_id
      { id := scheme_id, name := scheme_data.name, category := scheme_data.category,
        description := scheme_data.description, colors := scheme_data.colors,
        usage := scheme_data.usage, compatibility := scheme_data.compatibility,
        accessibility := scheme_data.accessibility,
        status := "active", usage_count := 0 },
    categories :=
      if dictContains reg.categories scheme_data.category then
        dictAppendAt reg.categories scheme_data.category scheme_id
      else reg.categories }

/-- The registry as built by `ColorSchemeService.__init__`. -/
def defaultSchemeRegistry : SchemeRegistry :=
  default_schemes.foldl registerDefaultScheme initialSchemeRegistry

/-- Caller-supplied descriptor for `create_scheme`: a JSON dict, each
field optional. -/
structure SchemeData where
  name : Option String := none
  category : Option String := none
  colors : Option (List (String × String)) := none
  description : Option String := none
  usage : Option String := none
  compatibility : Option (List String) := none
  accessibility : Option Accessibility := none
deriving Repr, DecidableEq

/-- `create_scheme` (color_scheme_service.py:239-307): sequential
required-field checks (name, category, colors), collision check on the
derived id, color-format validation, then construction of the record
with defaults and the two index updates (`_save_scheme_to_file` is a
pure file write and is omitted).  On the color-validation failure
branch the source returns `error: 'Invalid color format'` with the
collected messages under `details`. -/
def create_scheme (reg : SchemeRegistry) (scheme_data : SchemeData) :
    CreateResponse × SchemeRegistry :=
  match scheme_data.name with
  | none =>
    ({ success := false, error := some "Missing required field: name" }, reg)
  | some name =>
  match scheme_data.category with
  | none =>
    ({ success := false, error := some "Missing required field: category" }, reg)
  | some category =>
  match scheme_data.colors with
  | none =>
    ({ success := false, error := some "Missing required field: colors" }, reg)
  | some colors =>
    let scheme_id := _generate_scheme_id name
    if dictContains reg.schemes scheme_id then
      ({ success := false,
         error := some ("Color scheme " ++ name ++ " already exists") }, reg)
    else
      let color_validation := _validate_colors colors
      if !color_validation.valid then
        ({ success := false, error := some "Invalid color format",
           details := some color_validation.errors }, reg)
      else
        let scheme_info : SchemeRecord :=
          { id := scheme_id, name := name, category := category,
            description := scheme_data.description.getD "",
            colors := colors,
            usage := scheme_data.usage.getD "General purpose",
            compatibility := scheme_data.compatibility.getD [],
            accessibility := scheme_data.accessibility.getD
              { wcag_aa_compliant := false, contrast_ratio := 0 },
            status := "active", usage_count := 0 }
        let schemes' := dictSet reg.schemes scheme_id scheme_info
        let categories' := updateCategories reg.categories category scheme_id
        ({ success := true, asset_id := some scheme_id,
           message := some ("Color scheme " ++ name ++ " created successfully") },
         { schemes := schemes', categories := categories' })

/-- `self.scheme_registry['schemes'][scheme_id]['usage_count'] += 1`
(color_scheme_service.py:226). -/
def bumpSchemeUsage (m : List (String × SchemeRecord)) (k : String) :
    List (String × SchemeRecord) :=
  dictModifyAt m k fun r => { r with usage_count := r.usage_count + 1 }

/-- The value returned by `get_scheme` on a hit: the record copy (taken
before the increment) plus a `metadata` sub-dict with derived URLs
(`last_accessed` timestamp omitted). -/
structure SchemeDetails where
  info : SchemeRecord
  preview_url : String
  css_url : String
deriving Repr, DecidableEq

/-- `get_scheme` (color_scheme_service.py:218-237): on a hit, copy the
record, increment the stored record's `usage_count`, and return the
copy augmented with derived URLs; on a miss return `None` leaving the
registry unchanged. -/
def get_scheme (reg : SchemeRegistry) (scheme_name : String) :
    Option SchemeDetails × SchemeRegistry :=
  let scheme_id := _generate_scheme_id scheme_name
  match dictGet? reg.schemes scheme_id with
  | some scheme_info =>
      (some { info := scheme_info,
              preview_url := "/api/color-schemes/" ++ scheme_name ++ "/preview",
              css_url := "/api/color-schemes/" ++ scheme_name ++ "/css" },
       { reg with schemes := bumpSchemeUsage reg.schemes scheme_id })
  | none => (none, reg)

/-! ## TemplateService (template_service.py)

Template content bodies are the hard-coded string literals returned by
`_get_ieee_html_template` etc.; the spec treats them as opaque content
blobs, so each is modelled as a distinct marker string (no modelled
operation inspects content).  Registry `metadata` and `created`
timestamps omitted as before; `_save_template_to_file` is a pure file
write and drops out. -/

structure TemplateRecord where
  id : String
  name : String
  category : String
  description : String
  file_extension : String
  content : String
  style_compatibility : List String
  -- source field name: `variables` (a reserved word in Lean)
  variables_list : List String
  features : List String
  status : String
  usage_count : Nat
deriving Repr, DecidableEq

structure TemplateRegistry where
  templates : List (String × TemplateRecord)
  categories : List (String × List String)
deriving Repr, DecidableEq

/-- The fields of one entry of `templates_data`
(template_service.py:42-103). -/
structure TemplateSeed where
  name : String
  category : String
  description : String
  file_extension : String
  content : String
  style_compatibility : List String
  -- source field name: `variables` (a reserved word in Lean)
  variables_list : List String
  features : List String
deriving Repr, DecidableEq

/-- `_initialize_template_registry` (template_service.py:24-38). -/
def initialTemplateRegistry : TemplateRegistry :=
  { templates := [],
    categories :=
      [("html", []), ("css", []), ("latex", []), ("markdown", [])] }

/-- `templates_data` (template_service.py:42-103); content blobs
opaque. -/
def templates_data : List TemplateSeed :=
  [ { name := "IEEE Article HTML", category := "html",
      description := "HTML template for IEEE style articles",
      file_extension := "html", content := "<ieee article html blob>",
      style_compatibility := ["ieee"],
      variables_list := ["title", "authors", "abstract", "content"],
      features := ["two_column", "citations", "figures"] },
    { name := "Nature Article HTML", category := "html",
      description := "HTML template for Nature style articles",
      file_extension := "html", content := "<nature article html blob>",
      style_compatibility := ["nature"],
      variables_list := ["title", "authors", "abstract", "content"],
      features := ["single_column", "large_figures", "author_affiliations"] },
    { name := "IEEE CSS Stylesheet", category := "css",
      description := "CSS stylesheet for IEEE formatting",
      file_extension := "css", content := "<ieee css blob>",
      style_compatibility := ["ieee"],
      variables_list := ["primary_color", "font_family", "font_size"],
      features := ["two_column_layout", "academic_styling"] },
    { name := "Modern CSS Framework", category := "css",
      description := "Modern CSS framework for publications",
      file_extension := "css", content := "<modern css blob>",
      style_compatibility := ["modern", "web"],
      variables_list := ["color_scheme", "typography", "spacing"],
      features := ["responsive", "dark_mode", "accessibility"] },
    { name := "LaTeX IEEE Template", category := "latex",
      description := "LaTeX template for IEEE conferences",
      file_extension := "tex", content := "<latex ieee blob>",
      style_compatibility := ["ieee"],
      variables_list := ["title", "authors", "abstract", "keywords"],
      features := ["ieee_format", "bibliography", "figures"] },
    { name := "Markdown Academic", category := "markdown",
      description := "Markdown template for academic papers",
      file_extension := "md", content := "<markdown academic blob>",
      style_compatibility := ["academic", "github"],
      variables_list := ["title", "authors", "date", "abstract"],
      features := ["pandoc_compatible", "citations", "tables"] } ]

/-- One iteration of the seeding loop of `_create_default_templates`
(template_service.py:105-120). -/
def registerDefaultTemplate (reg : TemplateRegistry) (template_data : TemplateSeed) :
    TemplateRegistry :=
  let template_id := _generate_template_id template_data.name
  { templates := dictSet reg.templates template_id
      { id := template_id, name := template_data.name,
        category := template_data.category,
        description := template_data.description,
        file_extension := template_data.file_extension,
        content := template_data.content,
        style_compatibility := template_data.style_compatibility,
        variables_list := template_data.variables_list, features := template_data.features,
        status := "active", usage_count := 0 },
    categories :=
      if dictContains reg.categories template_data.category then
        dictAppendAt reg.categories template_data.category template_id
      else reg.categories }

/-- The registry as built by `TemplateService.__init__`. -/
def defaultTemplateRegistry : TemplateRegistry :=
  templates_data.foldl registerDefaultTemplate initialTemplateRegistry

/-- `self.template_registry['templates'][template_id]['usage_count'] += 1`
(template_service.py:664). -/
def bumpTemplateUsage (m : List (String × TemplateRecord)) (k : String) :
    List (String × TemplateRecord) :=
  dictModifyAt m k fun r => { r with usage_count := r.usage_count + 1 }

/-- The value returned by `get_template` on a hit: the record copy
(taken before the increment) plus the derived URLs (`last_accessed`
timestamp omitted). -/
structure TemplateDetails where
  info : TemplateRecord
  download_url : String
  preview_url : String
deriving Repr, DecidableEq

/-- `get_template` (template_service.py:656-675): on a hit, copy the
record, increment the stored record's `usage_count`, return the copy
augmented with derived URLs; on a miss return `None` leaving the
registry unchanged. -/
def get_template (reg : TemplateRegistry) (template_name : String) :
    Option TemplateDetails × TemplateRegistry :=
  let template_id := _generate_template_id template_name
  match dictGet? reg.templates template_id with
  | some template_info =>
      (some { info := template_info,
              download_url := "/api/templates/" ++ template_name ++ "/download",
              preview_url := "/api/templates/" ++ template_name ++ "/preview" },
       { reg with templates := bumpTemplateUsage reg.templates template_id })
  | none => (none, reg)

/-! ## AssetManager: validation (asset_manager.py:207-380)

The validator reads the filesystem; `os.path.exists` becomes a
parameter `fs : String → Bool`, `os.path.getsize` becomes
`fsize : String → Nat`, and opening-plus-`json.load` of a color-scheme
file becomes `jsonColors : String → Option Nat` (`none` models a
`json.JSONDecodeError`, `some n` a successful parse whose
`data.get('colors', {})` has `n` entries). -/

/-- One caller-supplied descriptor in the validator input: a JSON dict
of which only `name`, `path` and (for the compatibility heuristic)
`type` are consulted. `type_tag` models the source key `type`. -/
structure AssetDescriptor where
  name : Option String := none
  path : Option String := none
  type_tag : Option String := none
deriving Repr, DecidableEq

/-- One entry of `checked_fonts` / `checked_templates`: keys `name`,
`exists` (here `found`, since `exists` is reserved in Lean),
`valid_format`, `size`. -/
structure FileCheck where
  name : String
  found : Bool
  valid_format : Bool
  size : Nat
deriving Repr, DecidableEq

/-- One entry of `checked_schemes`: keys `name`, `exists` (`found`),
`valid_json`, `color_count`. -/
structure SchemeCheck where
  name : String
  found : Bool
  valid_json : Bool
  color_count : Nat
deriving Repr, DecidableEq

/-- Result shape of the three per-kind validators. -/
structure KindValidation (χ : Type) where
  valid : Bool
  errors : List String
  checked : List χ
deriving Repr, DecidableEq

/-- `path.lower().endswith(tuple_of_suffixes)`. -/
def pyLowerEndsWithAny (path : String) (suffixes : List String) : Bool :=
  suffixes.any fun suf => pyEndsWith (pyLower path.data) suf.data

/-- `_validate_fonts` (asset_manager.py:257-289).  The source's loop
latches `valid` to `False` alongside each appended error; structural
recursion yields the same errors and checked entries in order. -/
def _validate_fonts (fs : String → Bool) (fsize : String → Nat) :
    List AssetDescriptor → KindValidation FileCheck
  | [] => { valid := true, errors := [], checked := [] }
  | font :: rest =>
    let tail := _validate_fonts fs fsize rest
    match font.path with
    | some path =>
      if fs path then
        if pyLowerEndsWithAny path [".ttf", ".otf", ".woff", ".woff2"] then
          { valid := tail.valid, errors := tail.errors,
            checked := { name := font.name.getD "Unknown", found := true,
                         valid_format := true, size := fsize path } :: tail.checked }
        else
          { valid := false,
            errors := ("Invalid font format: " ++ path) :: tail.errors,
            checked := { name := font.name.getD "Unknown", found := true,
                         valid_format := false, size := fsize path } :: tail.checked }
      else
        { valid := false,
          errors := ("Font file not found: " ++ path) :: tail.errors,
          checked := { name := font.name.getD "Unknown", found := false,
                       valid_format := false, size := 0 } :: tail.checked }
    | none =>
      { valid := false,
        errors := ("Font file not found: " ++ "No path specified") :: tail.errors,
        checked := { name := font.name.getD "Unknown", found := false,
                     valid_format := false, size := 0 } :: tail.checked }

/-- `_validate_color_schemes` (asset_manager.py:291-324). -/
def _validate_color_schemes (fs : String → Bool) (jsonColors : String → Option Nat) :
    List AssetDescriptor → KindValidation SchemeCheck
  | [] => { valid := true, errors := [], checked := [] }
  | scheme :: rest =>
    let tail := _validate_color_schemes fs jsonColors rest
    match scheme.path with
    | some path =>
      if fs path then
        match jsonColors path with
        | some n =>
          { valid := tail.valid, errors := tail.errors,
            checked := { name := scheme.name.getD "Unknown", found := true,
                         valid_json := true, color_count := n } :: tail.checked }
        | none =>
          { valid := false,
            errors := ("Invalid JSON in color scheme: " ++ path) :: tail.errors,
            checked := { name := scheme.name.getD "Unknown", found := true,
                         valid_json := false, color_count := 0 } :: tail.checked }
      else
        { valid := false,
          errors := ("Color scheme file not found: " ++ path) :: tail.errors,
          checked := { name := scheme.name.getD "Unknown", found := false,
                       valid_json := false, color_count := 0 } :: tail.checked }
    | none =>
      { valid := false,
        errors := ("Color scheme file not found: " ++ "No path specified") :: tail.errors,
        checked := { name := scheme.name.getD "Unknown", found := false,
                     valid_json := false, color_count := 0 } :: tail.checked }

/-- `_validate_templates` (asset_manager.py:326-358).  An existing file
with an extension outside html/css/js/tex/md appends an error but — per
the source comment "Don't mark as invalid for unknown formats, just
warn" — leaves `valid` untouched; only a missing file flips `valid`. -/
def _validate_templates (fs : String → Bool) (fsize : String → Nat) :
    List AssetDescriptor → KindValidation FileCheck
  | [] => { valid := true, errors := [], checked := [] }
  | template :: rest =>
    let tail := _validate_templates fs fsize rest
    match template.path with
    | some path =>
      if fs path then
        if pyLowerEndsWithAny path [".html", ".css", ".js", ".tex", ".md"] then
          { valid := tail.valid, errors := tail.errors,
            checked := { name := template.name.getD "Unknown", found := true,
                         valid_format := true, size := fsize path } :: tail.checked }
        else
          { valid := tail.valid,
            errors := ("Unknown template format: " ++ path) :: tail.errors,
            checked := { name := template.name.getD "Unknown", found := true,
                         valid_format := false, size := fsize path } :: tail.checked }
      else
        { valid := false,
          errors := ("Template file not found: " ++ path) :: tail.errors,
          checked := { name := template.name.getD "Unknown", found := false,
                       valid_format := false, size := 0 } :: tail.checked }
    | none =>
      { valid := false,
        errors := ("Template file not found: " ++ "No path specified") :: tail.errors,
        checked := { name := template.name.getD "Unknown", found := false,
                     valid_format := false, size := 0 } :: tail.checked }

/-- Input to `validate_assets`: each section optional. -/
structure AssetConfig where
  fonts : Option (List AssetDescriptor) := none
  color_schemes : Option (List AssetDescriptor) := none
  templates : Option (List AssetDescriptor) := none
  style : Option String := none
deriving Repr, DecidableEq

/-- Result shape of `_check_asset_compatibility`. -/
structure CompatibilityResult where
  compatible : Bool
  warnings : List String
  recommendations : List String
deriving Repr, DecidableEq

/-- `_check_asset_compatibility` (asset_manager.py:360-380): the single
heuristic — a font with `type == 'serif'` together with
`style == 'modern'` (both `fonts` and `color_schemes` sections present)
yields one warning and one recommendation; `compatible` stays `True`. -/
def _check_asset_compatibility (asset_config : AssetConfig) : CompatibilityResult :=
  if asset_config.fonts.isSome && asset_config.color_schemes.isSome then
    let serif_fonts :=
      (asset_config.fonts.getD []).filter fun f => f.type_tag == some "serif"
    if !serif_fonts.isEmpty && asset_config.style == some "modern" then
      { compatible := true,
        warnings := ["Serif fonts may not be optimal for modern style designs"],
        recommendations := ["Consider using sans-serif fonts for modern designs"] }
    else { compatible := true, warnings := [], recommendations := [] }
  else { compatible := true, warnings := [], recommendations := [] }

/-- Result shape of `validate_assets`; the three `asset_checks` entries
are present exactly when the corresponding input section is
(`timestamp` omitted). -/
structure ValidationResult where
  valid : Bool
  errors : List String
  warnings : List String
  font_checks : Option (KindValidation FileCheck)
  scheme_checks : Option (KindValidation SchemeCheck)
  template_checks : Option (KindValidation FileCheck)
  compatibility : CompatibilityResult
deriving Repr, DecidableEq

/-- The source's `errors.extend(validation['errors'])`, performed only
when the sub-validation is invalid. -/
def invalidErrors (o : Option (KindValidation χ)) : List String :=
  match o with
  | some v => if v.valid then [] else v.errors
  | none => []

/-- `validate_assets` (asset_manager.py:207-255).  The source starts
from `valid=True, errors=[]`, runs each present section's validator,
and on an invalid section sets `valid=False` and extends `errors`;
warnings come only from the compatibility check.  The sequential
updates are assembled here in one record: `valid` is the conjunction of
the present sections' flags, and `errors` is the concatenation, in
section order, of the errors of the invalid sections. -/
def validate_assets (fs : String → Bool) (fsize : String → Nat)
    (jsonColors : String → Option Nat) (asset_config : AssetConfig) :
    ValidationResult :=
  let font_validation := asset_config.fonts.map (_validate_fonts fs fsize)
  let color_validation :=
    asset_config.color_schemes.map (_validate_color_schemes fs jsonColors)
  let template_validation := asset_config.templates.map (_validate_templates fs fsize)
  let compatibility := _check_asset_compatibility asset_config
  { valid := font_validation.all (·.valid) && color_validation.all (·.valid) &&
      template_validation.all (·.valid),
    errors := invalidErrors font_validation ++ invalidErrors color_validation ++
      invalidErrors template_validation,
    warnings := compatibility.warnings,
    font_checks := font_validation,
    scheme_checks := color_validation,
    template_checks := template_validation,
    compatibility := compatibility }

/-! ## AssetManager: bundling (asset_manager.py:44-205)

`create_bundle` writes a ZIP archive; the claims concern the manifest
and the returned counts, so the archive bytes, the bundle size and the
checksum (functions of wall-clock time and disk content) are outside
the model.  `bundle_id` — the first 12 hex chars of
`md5(f"{name}_{style}_{timestamp}")`, `_generate_bundle_id`
(asset_manager.py:458-461) — depends on the wall clock and is passed in
as an opaque parameter.  The update of `asset_registry['bundles']` only
records the same data and is omitted. -/

/-- One entry of the per-style asset tables
(asset_manager.py:139-205); `type_tag` models the source key `type`. -/
structure StyleAsset where
  name : String
  filename : String
  path : String
  type_tag : String
  weight : Option String := none
deriving Repr, DecidableEq

/-- First entry of `default_fonts` in `_get_style_fonts`
(asset_manager.py:142-149). -/
def timesNewRomanBundleFont : StyleAsset :=
  { name := "Times New Roman", filename := "times-new-roman.ttf",
    path := "fonts/times-new-roman.ttf", type_tag := "serif",
    weight := some "normal" }

/-- Second entry of `default_fonts` in `_get_style_fonts`
(asset_manager.py:150-156). -/
def arialBundleFont : StyleAsset :=
  { name := "Arial", filename := "arial.ttf", path := "fonts/arial.ttf",
    type_tag := "sans-serif", weight := some "normal" }

/-- `_get_style_fonts` (asset_manager.py:139-167): the static
style-to-font table, falling back to both default fonts. -/
def _get_style_fonts (style_name : String) : List StyleAsset :=
  if style_name == "ieee" then [timesNewRomanBundleFont]
  else if style_name == "nature" then [timesNewRomanBundleFont]
  else if style_name == "apa" then [timesNewRomanBundleFont]
  else if style_name == "modern" then [arialBundleFont]
  else [timesNewRomanBundleFont, arialBundleFont]

/-- `_get_style_color_schemes` (asset_manager.py:169-186): the same two
schemes for every style. -/
def _get_style_color_schemes (_style_name : String) : List StyleAsset :=
  [ { name := "Academic", filename := "academic.json",
      path := "color_schemes/academic.json", type_tag := "professional" },
    { name := "Modern Blue", filename := "modern_blue.json",
      path := "color_schemes/modern_blue.json", type_tag := "contemporary" } ]

/-- Python `str.upper()` characterwise (ASCII input). -/
def pyUpper (s : List Char) : List Char :=
  s.map Char.toUpper

/-- `_get_style_templates` (asset_manager.py:188-205): filenames
synthesized from the style name itself. -/
def _get_style_templates (style_name : String) : List StyleAsset :=
  [ { name := String.mk (pyUpper style_name.data) ++ " Article Template",
      filename := style_name ++ "_article.html",
      path := "templates/" ++ style_name ++ "_article.html",
      type_tag := "article" },
    { name := String.mk (pyUpper style_name.data) ++ " CSS",
      filename := style_name ++ ".css",
      path := "templates/" ++ style_name ++ ".css",
      type_tag := "stylesheet" } ]

/-- Input to `create_bundle` (arbitrary `metadata` is passed through
unchanged and not modelled). -/
structure BundleConfig where
  name : Option String := none
  style : Option String := none
  include_fonts : Option Bool := none
  include_color_schemes : Option Bool := none
  include_templates : Option Bool := none
deriving Repr, DecidableEq

structure AssetCount where
  fonts : Nat
  color_schemes : Nat
  templates : Nat
deriving Repr, DecidableEq

/-- The modelled part of the `create_bundle` return value: `success`,
ids and names, manifest asset lists, per-kind counts and download URL
(`bundle_path`, `bundle_size`, `checksum`, `timestamp` are functions of
disk and wall clock, outside the model). -/
structure BundleResult where
  success : Bool
  bundle_id : String
  bundle_name : String
  style : String
  manifest_fonts : List StyleAsset
  manifest_color_schemes : List StyleAsset
  manifest_templates : List StyleAsset
  asset_count : AssetCount
  download_url : String
deriving Repr, DecidableEq

/-- `create_bundle` (asset_manager.py:44-137).  For each included kind
the loop writes into the archive and appends to the manifest exactly
those resolved assets whose `path` exists (`fs`); assets with a missing
file are skipped with no error and no warning recorded anywhere in the
result.  Counts are the manifest list lengths. -/
def create_bundle (fs : String → Bool) (bundle_id : String)
    (bundle_config : BundleConfig) : BundleResult :=
  let bundle_name := bundle_config.name.getD "default_bundle"
  let style_name := bundle_config.style.getD "default"
  let include_fonts := bundle_config.include_fonts.getD true
  let include_color_schemes := bundle_config.include_color_schemes.getD true
  let include_templates := bundle_config.include_templates.getD true
  let manifest_fonts :=
    if include_fonts then (_get_style_fonts style_name).filter (fun a => fs a.path)
    else []
  let manifest_color_schemes :=
    if include_color_schemes then
      (_get_style_color_schemes style_name).filter (fun a => fs a.path)
    else []
  let manifest_templates :=
    if include_templates then
      (_get_style_templates style_name).filter (fun a => fs a.path)
    else []
  { success := true, bundle_id := bundle_id, bundle_name := bundle_name,
    style := style_name,
    manifest_fonts := manifest_fonts,
    manifest_color_schemes := manifest_color_schemes,
    manifest_templates := manifest_templates,
    asset_count :=
      { fonts := manifest_fonts.length,
        color_schemes := manifest_color_schemes.length,
        templates := manifest_templates.length },
    download_url := "/api/bundles/" ++ bundle_id ++ "/download" }

/-! ## Registry invariant and reachable states -/

/-- The registry consistency invariant of the spec's data model:
primary-map keys unique, category-index keys unique, no duplicate id
inside a category list, and no orphaned index entry (every indexed id
is a key of the primary map). -/
def RegInv (m : List (String × α)) (cats : List (String × List String)) : Prop :=
  (m.map Prod.fst).Nodup ∧
  (cats.map Prod.fst).Nodup ∧
  (∀ p ∈ cats, p.2.Nodup) ∧
  (∀ p ∈ cats, ∀ i ∈ p.2, dictContains m i = true)

/-- Font-registry states reachable by catalog construction followed by
any sequence of successful `register_custom_font` calls. -/
inductive FontReachable : FontRegistry → Prop
  | init : FontReachable defaultFontRegistry
  | step {reg : FontRegistry} (d : FontData) : FontReachable reg →
      (register_custom_font reg d).1.success = true →
      FontReachable (register_custom_font reg d).2

/-- Scheme-registry states reachable by catalog construction followed
by any sequence of successful `create_scheme` calls. -/
inductive SchemeReachable : SchemeRegistry → Prop
  | init : SchemeReachable defaultSchemeRegistry
  | step {reg : SchemeRegistry} (d : SchemeData) : SchemeReachable reg →
      (create_scheme reg d).1.success = true →
      SchemeReachable (create_scheme reg d).2

/-! # Theorems -/

/-! ## Identifier normalization (C5) -/

theorem specNormalizeChar_of_toLower_eq {a b : Char} (h : a.toLower = b.toLower) :
    specNormalizeChar a = specNormalizeChar b := by
  simp [specNormalizeChar, h]

theorem normalizeChar_pipeline (c : Char) :
    (if (if c.toLower = ' ' then '_' else c.toLower) = '-' then '_'
     else if c.toLower = ' ' then '_' else c.toLower) = specNormalizeChar c := by
  by_cases h1 : c.toLower = ' '
  · simp [h1, specNormalizeChar]
  · by_cases h2 : c.toLower = '-' <;> simp [h1, h2, specNormalizeChar]

theorem map_specNormalizeChar_congr {xs ys : List Char}
    (h : List.Forall₂
      (fun a b => a.toLower = b.toLower ∨ ((a = ' ' ∨ a = '-') ∧ (b = ' ' ∨ b = '-')))
      xs ys) :
    xs.map specNormalizeChar = ys.map specNormalizeChar := by
  induction h with
  | nil => rfl
  | cons hab _ ih =>
    refine congrArg₂ List.cons ?_ ih
    rcases hab with h | ⟨ha, hb⟩
    · exact specNormalizeChar_of_toLower_eq h
    · rcases ha with rfl | rfl <;> rcases hb with rfl | rfl <;> decide

theorem generate_font_id_eq_specDeriveId (name : String) :
    _generate_font_id name = specDeriveId name := by
  unfold _generate_font_id specDeriveId pyLower pyReplace
  congr 1
  simp only [List.map_map]
  congr 1
  funext c
  simpa [Function.comp] using normalizeChar_pipeline c

/-- **C5**: id derivation is the same deterministic normalization in
all three catalogs — lowercase with spaces and hyphens sent to
underscore — so names differing only in case or in
spaces-versus-hyphens collide, as in the Times New Roman example. -/
theorem c5_normalization_uniform :
    (∀ name : String, _generate_font_id name = specDeriveId name) ∧
    (∀ name : String, _generate_scheme_id name = _generate_font_id name) ∧
    (∀ name : String, _generate_template_id name = _generate_font_id name) ∧
    (∀ s t : String, CaseSpaceHyphenEquiv s t →
      _generate_font_id s = _generate_font_id t) ∧
    (_generate_font_id "Times New Roman" = _generate_font_id "times-new-roman" ∧
      _generate_font_id "Times New Roman" = _generate_font_id "TIMES NEW ROMAN" ∧
      _generate_font_id "Times New Roman" = "times_new_roman") := by
  refine ⟨generate_font_id_eq_specDeriveId, fun _ => rfl, fun _ => rfl, ?_, by decide⟩
  intro s t h
  rw [generate_font_id_eq_specDeriveId, generate_font_id_eq_specDeriveId]
  unfold specDeriveId
  exact congrArg String.mk (map_specNormalizeChar_congr h)

/-- Witness for C5 at a concrete pair of equivalent names. -/
theorem c5_normalization_uniform_witness :
    CaseSpaceHyphenEquiv "Font-A" "font a" ∧
    _generate_font_id "Font-A" = _generate_font_id "font a" := by
  have h : CaseSpaceHyphenEquiv "Font-A" "font a" := by
    unfold CaseSpaceHyphenEquiv
    refine .cons (Or.inl (by decide)) (.cons (Or.inl (by decide))
      (.cons (Or.inl (by decide)) (.cons (Or.inl (by decide))
        (.cons (Or.inr (by decide)) (.cons (Or.inl (by decide)) .nil)))))
  exact ⟨h, c5_normalization_uniform.2.2.2.1 "Font-A" "font a" h⟩

/-! ## Color-format validation (C6) -/

theorem validate_colors_characterization (colors : List (String × String)) :
    (_validate_colors colors).errors.length =
      (colors.filter fun p => !colorFormatOk p.2).length ∧
    (_validate_colors colors).valid = colors.all fun p => colorFormatOk p.2 := by
  induction colors with
  | nil => simp [_validate_colors]
  | cons p rest ih =>
    obtain ⟨n, v⟩ := p
    by_cases h : colorFormatOk v <;>
      simp [_validate_colors, h, ih.1, ih.2]

/-- **C6**: every color value is matched against the hex / rgb / rgba
patterns and each non-matching entry contributes exactly one error
(`valid` is the conjunction of the matches, so validation is not
fail-fast); in particular two malformed values give exactly two errors
and `valid = false`. -/
theorem c6_color_validation_not_failfast (colors : List (String × String)) :
    ((_validate_colors colors).errors.length =
      (colors.filter fun p => !colorFormatOk p.2).length) ∧
    ((_validate_colors colors).valid = colors.all fun p => colorFormatOk p.2) ∧
    ((colors.filter fun p => !colorFormatOk p.2).length = 2 →
      (_validate_colors colors).errors.length = 2 ∧
      (_validate_colors colors).valid = false) ∧
    (∀ (reg : SchemeRegistry) (d : SchemeData) (name category : String),
      d.name = some name → d.category = some category → d.colors = some colors →
      dictContains reg.schemes (_generate_scheme_id name) = false →
      (colors.filter fun p => !colorFormatOk p.2).length = 2 →
      (create_scheme reg d).1.success = false ∧
      (create_scheme reg d).1.error = some "Invalid color format" ∧
      (create_scheme reg d).1.details.map List.length = some 2) := by
  have hchar := validate_colors_characterization colors
  have hvfalse : (colors.filter fun p => !colorFormatOk p.2).length = 2 →
      (_validate_colors colors).valid = false := by
    intro h2
    rw [hchar.2]
    by_contra hall
    rw [Bool.not_eq_false, List.all_eq_true] at hall
    have hnil : (colors.filter fun p => !colorFormatOk p.2) = [] := by
      rw [List.filter_eq_nil_iff]
      intro p hp
      simp [hall p hp]
    rw [hnil] at h2
    simp at h2
  refine ⟨hchar.1, hchar.2, fun h2 => ⟨hchar.1.trans h2, hvfalse h2⟩, ?_⟩
  intro reg d name category hn hc hcol hfresh h2
  have hv := hvfalse h2
  refine ⟨?_, ?_, ?_⟩
  · simp [create_scheme, hn, hc, hcol, hfresh, hv]
  · simp [create_scheme, hn, hc, hcol, hfresh, hv]
  · simp only [create_scheme, hn, hc, hcol, hfresh, Bool.false_eq_true, if_false, hv,
      Bool.not_false, if_true, Option.map_some']
    exact congrArg some (hchar.1.trans h2)

/-- Witness for C6 at a concrete two-bad-values input, both on the bare
validator and through `create_scheme`. -/
theorem c6_color_validation_not_failfast_witness :
    ((_validate_colors
      [("primary", "#000000"), ("secondary", "oops"), ("accent", "nope")]).errors.length = 2 ∧
    (_validate_colors
      [("primary", "#000000"), ("secondary", "oops"), ("accent", "nope")]).valid = false) ∧
    (create_scheme defaultSchemeRegistry
      { name := some "Bad Colors", category := some "modern",
        colors := some
          [("primary", "#000000"), ("secondary", "oops"), ("accent", "nope")] }).1.success =
      false ∧
    (create_scheme defaultSchemeRegistry
      { name := some "Bad Colors", category := some "modern",
        colors := some
          [("primary", "#000000"), ("secondary", "oops"), ("accent", "nope")] }).1.error =
      some "Invalid color format" ∧
    (create_scheme defaultSchemeRegistry
      { name := some "Bad Colors", category := some "modern",
        colors := some
          [("primary", "#000000"), ("secondary", "oops"), ("accent", "nope")] }).1.details.map
      List.length = some 2 :=
  ⟨(c6_color_validation_not_failfast
      [("primary", "#000000"), ("secondary", "oops"), ("accent", "nope")]).2.2.1 (by decide),
   (c6_color_validation_not_failfast
      [("primary", "#000000"), ("secondary", "oops"), ("accent", "nope")]).2.2.2
      defaultSchemeRegistry
      { name := some "Bad Colors", category := some "modern",
        colors := some
          [("primary", "#000000"), ("secondary", "oops"), ("accent", "nope")] }
      "Bad Colors" "modern" rfl rfl rfl (by decide) (by decide)⟩

/-! ## Dictionary lemmas -/

theorem dictContains_iff (m : List (String × α)) (k : String) :
    dictContains m k = true ↔ k ∈ m.map Prod.fst := by
  simp [dictContains, List.any_eq_true, List.mem_map, beq_iff_eq]

theorem dictContains_eq_false_iff (m : List (String × α)) (k : String) :
    dictContains m k = false ↔ k ∉ m.map Prod.fst := by
  rw [← dictContains_iff]
  cases dictContains m k <;> simp

theorem dictContains_cons_false {p : String × α} {rest : List (String × α)} {k : String}
    (h : dictContains (p :: rest) k = false) :
    (p.1 == k) = false ∧ dictContains rest k = false := by
  simpa [dictContains, List.any_cons, Bool.or_eq_false_iff] using h

theorem dictSet_keys_fresh (m : List (String × α)) (k : String) (v : α)
    (h : dictContains m k = false) :
    (dictSet m k v).map Prod.fst = m.map Prod.fst ++ [k] := by
  induction m with
  | nil => simp [dictSet]
  | cons p rest ih =>
    obtain ⟨h1, h2⟩ := dictContains_cons_false h
    simp [dictSet, h1, ih h2]

theorem dictSet_fresh_eq_append (m : List (String × α)) (k : String) (v : α)
    (h : dictContains m k = false) :
    dictSet m k v = m ++ [(k, v)] := by
  induction m with
  | nil => simp [dictSet]
  | cons p rest ih =>
    obtain ⟨h1, h2⟩ := dictContains_cons_false h
    simp [dictSet, h1, ih h2]

theorem dictContains_dictSet_self (m : List (String × α)) (k : String) (v : α) :
    dictContains (dictSet m k v) k = true := by
  induction m with
  | nil => simp [dictSet, dictContains]
  | cons p rest ih =>
    by_cases h : (p.1 == k) = true
    · simp [dictSet, h, dictContains, List.any_cons]
    · simp only [dictSet, h, if_false, Bool.false_eq_true]
      simp only [dictContains, List.any_cons, Bool.or_eq_true]
      exact Or.inr ih

theorem dictContains_dictSet_of_contains (m : List (String × α)) (k j : String) (v : α)
    (h : dictContains m j = true) :
    dictContains (dictSet m k v) j = true := by
  induction m with
  | nil => simp [dictContains] at h
  | cons p rest ih =>
    simp only [dictContains, List.any_cons, Bool.or_eq_true] at h
    by_cases hpk : (p.1 == k) = true
    · simp only [dictSet, hpk, if_true]
      simp only [dictContains, List.any_cons, Bool.or_eq_true]
      rcases h with hp | hr
      · left
        rw [beq_iff_eq] at hpk hp ⊢
        rw [← hpk, hp]
      · right
        exact hr
    · simp only [dictSet, hpk, if_false, Bool.false_eq_true]
      simp only [dictContains, List.any_cons, Bool.or_eq_true]
      rcases h with hp | hr
      · left; exact hp
      · right; exact ih hr

theorem dictGet?_eq_none_of_fresh (m : List (String × α)) (k : String)
    (h : dictContains m k = false) :
    dictGet? m k = none := by
  induction m with
  | nil => rfl
  | cons p rest ih =>
    obtain ⟨h1, h2⟩ := dictContains_cons_false h
    simp [dictGet?, h1, ih h2]

theorem dictGet?_append_fresh (m : List (String × α)) (k : String) (v : α)
    (h : dictContains m k = false) :
    dictGet? (m ++ [(k, v)]) k = some v := by
  induction m with
  | nil => simp [dictGet?]
  | cons p rest ih =>
    obtain ⟨h1, h2⟩ := dictContains_cons_false h
    simp [dictGet?, h1, ih h2]

theorem dictGet?_isSome_of_contains (m : List (String × α)) (k : String)
    (h : dictContains m k = true) :
    ∃ v, dictGet? m k = some v := by
  induction m with
  | nil => simp [dictContains] at h
  | cons p rest ih =>
    by_cases hpk : (p.1 == k) = true
    · exact ⟨p.2, by simp [dictGet?, hpk]⟩
    · simp only [dictContains, List.any_cons, Bool.or_eq_true] at h
      rcases h with hp | hr
      · exact absurd hp hpk
      · obtain ⟨v, hv⟩ := ih hr
        exact ⟨v, by simp [dictGet?, hpk, hv]⟩

theorem mem_of_dictGet?_eq_some {m : List (String × α)} {k : String} {l : α}
    (h : dictGet? m k = some l) :
    (k, l) ∈ m := by
  induction m with
  | nil => simp [dictGet?] at h
  | cons p rest ih =>
    by_cases hpk : (p.1 == k) = true
    · simp only [dictGet?, hpk, if_true, Option.some.injEq] at h
      rw [beq_iff_eq] at hpk
      rw [← h, ← hpk]
      exact List.mem_cons_self p rest
    · simp only [dictGet?, hpk, if_false, Bool.false_eq_true] at h
      exact List.mem_cons_of_mem p (ih h)

theorem dictModifyAt_keys (m : List (String × α)) (k : String) (f : α → α) :
    (dictModifyAt m k f).map Prod.fst = m.map Prod.fst := by
  induction m with
  | nil => rfl
  | cons p rest ih =>
    simp only [dictModifyAt, List.map_cons] at ih ⊢
    refine congrArg₂ List.cons ?_ ih
    by_cases h : (p.1 == k) = true
    · rw [if_pos h]
    · rw [if_neg h]

theorem dictGet?_dictModifyAt_self (m : List (String × α)) (k : String) (f : α → α) :
    dictGet? (dictModifyAt m k f) k = (dictGet? m k).map f := by
  induction m with
  | nil => simp [dictModifyAt, dictGet?]
  | cons p rest ih =>
    by_cases h : (p.1 == k) = true
    · simp [dictModifyAt, dictGet?, h]
    · simp only [dictModifyAt, List.map_cons, h, if_false, Bool.false_eq_true]
      simp only [dictGet?, h, if_false, Bool.false_eq_true]
      simpa [dictModifyAt] using ih

theorem dictGet?_dictModifyAt_ne (m : List (String × α)) (k j : String) (f : α → α)
    (hne : j ≠ k) :
    dictGet? (dictModifyAt m k f) j = dictGet? m j := by
  induction m with
  | nil => simp [dictModifyAt, dictGet?]
  | cons p rest ih =>
    by_cases h : (p.1 == k) = true
    · have hj : (p.1 == j) = false := by
        rw [beq_iff_eq] at h
        rw [beq_eq_false_iff_ne, h]
        exact fun he => hne he.symm
      simp only [dictModifyAt, List.map_cons, h, if_true]
      simp only [dictGet?, hj, if_false, Bool.false_eq_true]
      simpa [dictModifyAt] using ih
    · simp only [dictModifyAt, List.map_cons, h, if_false, Bool.false_eq_true]
      simp only [dictGet?]
      by_cases hj : (p.1 == j) = true
      · simp [hj]
      · simp only [hj, if_false, Bool.false_eq_true]
        simpa [dictModifyAt] using ih

/-! ## Generic registry-insert preservation -/

/-- Inserting a fresh id `k` with category `c` — exactly the update
performed by the success branch of both create operations — preserves
`RegInv`, puts `k` into the primary map, and leaves `k` occurring
exactly once in its category's index list. -/
theorem RegInv_insert {α : Type} {m : List (String × α)} {cats : List (String × List String)}
    (inv : RegInv m cats) (k : String) (v : α) (c : String)
    (hk : dictContains m k = false) :
    RegInv (dictSet m k v) (updateCategories cats c k) ∧
    dictContains (dictSet m k v) k = true ∧
    ∃ l, dictGet? (updateCategories cats c k) c = some l ∧ l.count k = 1 := by
  obtain ⟨h1, h2, h3, h4⟩ := inv
  have hknotin : k ∉ m.map Prod.fst := (dictContains_eq_false_iff m k).mp hk
  have hkeys : (dictSet m k v).map Prod.fst = m.map Prod.fst ++ [k] :=
    dictSet_keys_fresh m k v hk
  have h1' : ((dictSet m k v).map Prod.fst).Nodup := by
    rw [hkeys]
    refine h1.append (List.nodup_singleton k) ?_
    intro a ha hb
    rw [List.mem_singleton] at hb
    exact hknotin (hb ▸ ha)
  have hknotidx : ∀ p ∈ cats, k ∉ p.2 := by
    intro p hp hkin
    have hc := h4 p hp k hkin
    rw [hc] at hk
    simp at hk
  have hcontains' : ∀ i, dictContains m i = true → dictContains (dictSet m k v) i = true :=
    fun i hi => dictContains_dictSet_of_contains m k i v hi
  by_cases hc : dictContains cats c = true
  · -- existing category: append to its list
    have hupd : updateCategories cats c k = dictAppendAt cats c k := by
      simp [updateCategories, hc]
    obtain ⟨l0, hl0⟩ := dictGet?_isSome_of_contains cats c hc
    have hl0mem : (c, l0) ∈ cats := mem_of_dictGet?_eq_some hl0
    refine ⟨⟨h1', ?_, ?_, ?_⟩, dictContains_dictSet_self m k v, ?_⟩
    · rw [hupd, dictAppendAt, dictModifyAt_keys]
      exact h2
    · rw [hupd, dictAppendAt, dictModifyAt]
      intro p' hp'
      obtain ⟨p, hp, hpe⟩ := List.mem_map.mp hp'
      by_cases hpc : (p.1 == c) = true
      · rw [if_pos hpc] at hpe
        rw [← hpe]
        exact (h3 p hp).append (List.nodup_singleton k)
          (fun a ha hb => hknotidx p hp ((List.mem_singleton.mp hb) ▸ ha))
      · rw [if_neg (by simp [hpc])] at hpe
        rw [← hpe]
        exact h3 p hp
    · rw [hupd, dictAppendAt, dictModifyAt]
      intro p' hp' i hi
      obtain ⟨p, hp, hpe⟩ := List.mem_map.mp hp'
      by_cases hpc : (p.1 == c) = true
      · rw [if_pos hpc] at hpe
        rw [← hpe] at hi
        rcases List.mem_append.mp hi with hil | hik
        · exact hcontains' i (h4 p hp i hil)
        · rw [List.mem_singleton.mp hik]
          exact dictContains_dictSet_self m k v
      · rw [if_neg (by simp [hpc])] at hpe
        rw [← hpe] at hi
        exact hcontains' i (h4 p hp i hi)
    · refine ⟨l0 ++ [k], ?_, ?_⟩
      · rw [hupd, dictAppendAt, dictGet?_dictModifyAt_self, hl0]
        rfl
      · rw [List.count_append]
        have : l0.count k = 0 := List.count_eq_zero.mpr (hknotidx _ hl0mem)
        simp [this]
  · -- fresh category: brand-new singleton index
    have hcf : dictContains cats c = false := by
      cases hcc : dictContains cats c
      · rfl
      · exact absurd hcc hc
    have hupd : updateCategories cats c k = cats ++ [(c, [k])] := by
      rw [updateCategories, if_neg (by simp [hcf])]
      exact dictSet_fresh_eq_append cats c [k] hcf
    have hcnotin : c ∉ cats.map Prod.fst := (dictContains_eq_false_iff cats c).mp hcf
    refine ⟨⟨h1', ?_, ?_, ?_⟩, dictContains_dictSet_self m k v, ?_⟩
    · rw [hupd, List.map_append]
      refine h2.append (List.nodup_singleton c) ?_
      intro a ha hb
      simp only [List.map_cons, List.map_nil, List.mem_singleton] at hb
      exact hcnotin (hb ▸ ha)
    · rw [hupd]
      intro p hp
      rcases List.mem_append.mp hp with hpl | hpr
      · exact h3 p hpl
      · rw [List.mem_singleton.mp hpr]
        exact List.nodup_singleton k
    · rw [hupd]
      intro p hp i hi
      rcases List.mem_append.mp hp with hpl | hpr
      · exact hcontains' i (h4 p hpl i hi)
      · rw [List.mem_singleton.mp hpr] at hi
        rw [List.mem_singleton.mp hi]
        exact dictContains_dictSet_self m k v
    · refine ⟨[k], ?_, by simp⟩
      rw [hupd]
      exact dictGet?_append_fresh cats c [k] hcf

/-! ## Create operations: success-branch characterization -/

/-- A successful `register_custom_font` call has all required fields, a
fresh id, and performs exactly the primary-map insert plus the
category-index update. -/
theorem register_custom_font_success_state {reg : FontRegistry} {d : FontData}
    (h : (register_custom_font reg d).1.success = true) :
    ∃ name category v,
      d.name = some name ∧ d.category = some category ∧
      dictContains reg.fonts (_generate_font_id name) = false ∧
      (register_custom_font reg d).2 =
        { fonts := dictSet reg.fonts (_generate_font_id name) v,
          categories := updateCategories reg.categories category (_generate_font_id name) } := by
  cases hn : d.name with
  | none => simp [register_custom_font, hn] at h
  | some name =>
  cases hf : d.family with
  | none => simp [register_custom_font, hn, hf] at h
  | some family =>
  cases hc : d.category with
  | none => simp [register_custom_font, hn, hf, hc] at h
  | some category =>
  cases hcoll : dictContains reg.fonts (_generate_font_id name) with
  | true => simp [register_custom_font, hn, hf, hc, hcoll] at h
  | false =>
    refine ⟨name, category,
      { id := _generate_font_id name, name := name, family := family,
        category := category, weight := d.weight.getD "normal",
        style := d.style.getD "normal", formats := d.formats.getD ["ttf"],
        usage := d.usage.getD "General purpose",
        compatibility := d.compatibility.getD [],
        file_size := d.file_size.getD "Unknown",
        character_set := d.character_set.getD "latin_basic",
        license := d.license.getD "custom",
        status := "available", download_count := 0 }, rfl, rfl, hcoll, ?_⟩
    simp only [register_custom_font, hn, hf, hc, hcoll, Bool.false_eq_true, if_false]

/-- A successful `create_scheme` call has all required fields, a fresh
id, well-formed colors, and performs exactly the primary-map insert
plus the category-index update. -/
theorem create_scheme_success_state {reg : SchemeRegistry} {d : SchemeData}
    (h : (create_scheme reg d).1.success = true) :
    ∃ name category v,
      d.name = some name ∧ d.category = some category ∧
      dictContains reg.schemes (_generate_scheme_id name) = false ∧
      (create_scheme reg d).2 =
        { schemes := dictSet reg.schemes (_generate_scheme_id name) v,
          categories := updateCategories reg.categories category (_generate_scheme_id name) } := by
  cases hn : d.name with
  | none => simp [create_scheme, hn] at h
  | some name =>
  cases hc : d.category with
  | none => simp [create_scheme, hn, hc] at h
  | some category =>
  cases hcol : d.colors with
  | none => simp [create_scheme, hn, hc, hcol] at h
  | some colors =>
  cases hcoll : dictContains reg.schemes (_generate_scheme_id name) with
  | true => simp [create_scheme, hn, hc, hcol, hcoll] at h
  | false =>
  cases hval : (_validate_colors colors).valid with
  | false => simp [create_scheme, hn, hc, hcol, hcoll, hval] at h
  | true =>
    refine ⟨name, category,
      { id := _generate_scheme_id name, name := name, category := category,
        description := d.description.getD "", colors := colors,
        usage := d.usage.getD "General purpose",
        compatibility := d.compatibility.getD [],
        accessibility := d.accessibility.getD
          { wcag_aa_compliant := false, contrast_ratio := 0 },
        status := "active", usage_count := 0 }, rfl, rfl, hcoll, ?_⟩
    simp only [create_scheme, hn, hc, hcol, hcoll, hval, Bool.false_eq_true, if_false,
      Bool.not_true]

/-- **C3**: every registry state reachable by construction plus
successful creates satisfies the consistency invariant (unique keys, no
index duplicates, no orphaned index entries), and each successful
create puts the new id into the primary map and exactly once into its
category's index list — for the font catalog and the color-scheme
catalog alike. -/
theorem c3_registry_index_consistency :
    ((∀ reg, FontReachable reg → RegInv reg.fonts reg.categories) ∧
      (∀ (reg : FontRegistry) (d : FontData) (name category : String),
        FontReachable reg → d.name = some name → d.category = some category →
        (register_custom_font reg d).1.success = true →
        dictContains (register_custom_font reg d).2.fonts (_generate_font_id name) = true ∧
        ∃ l, dictGet? (register_custom_font reg d).2.categories category = some l ∧
          l.count (_generate_font_id name) = 1)) ∧
    ((∀ reg, SchemeReachable reg → RegInv reg.schemes reg.categories) ∧
      (∀ (reg : SchemeRegistry) (d : SchemeData) (name category : String),
        SchemeReachable reg → d.name = some name → d.category = some category →
        (create_scheme reg d).1.success = true →
        dictContains (create_scheme reg d).2.schemes (_generate_scheme_id name) = true ∧
        ∃ l, dictGet? (create_scheme reg d).2.categories category = some l ∧
          l.count (_generate_scheme_id name) = 1)) := by
  have fontInv : ∀ reg, FontReachable reg → RegInv reg.fonts reg.categories := by
    intro reg hreach
    induction hreach with
    | init => unfold RegInv; decide
    | step d _ hs ih =>
      obtain ⟨name, category, v, _, _, hfresh, heq⟩ :=
        register_custom_font_success_state hs
      rw [heq]
      exact (RegInv_insert ih (_generate_font_id name) v category hfresh).1
  have schemeInv : ∀ reg, SchemeReachable reg → RegInv reg.schemes reg.categories := by
    intro reg hreach
    induction hreach with
    | init => unfold RegInv; decide
    | step d _ hs ih =>
      obtain ⟨name, category, v, _, _, hfresh, heq⟩ := create_scheme_success_state hs
      rw [heq]
      exact (RegInv_insert ih (_generate_scheme_id name) v category hfresh).1
  refine ⟨⟨fontInv, ?_⟩, schemeInv, ?_⟩
  · intro reg d name category hreach hn hc hs
    obtain ⟨name', category', v, hn', hc', hfresh, heq⟩ :=
      register_custom_font_success_state hs
    rw [hn] at hn'
    obtain rfl : name = name' := Option.some.inj hn'
    rw [hc] at hc'
    obtain rfl : category = category' := Option.some.inj hc'
    rw [heq]
    have hins := RegInv_insert (fontInv reg hreach) (_generate_font_id name) v category hfresh
    exact ⟨hins.2.1, hins.2.2⟩
  · intro reg d name category hreach hn hc hs
    obtain ⟨name', category', v, hn', hc', hfresh, heq⟩ := create_scheme_success_state hs
    rw [hn] at hn'
    obtain rfl : name = name' := Option.some.inj hn'
    rw [hc] at hc'
    obtain rfl : category = category' := Option.some.inj hc'
    rw [heq]
    have hins := RegInv_insert (schemeInv reg hreach) (_generate_scheme_id name) v category hfresh
    exact ⟨hins.2.1, hins.2.2⟩

/-- Witness for C3: the default registries and one concrete successful
create on each catalog. -/
theorem c3_registry_index_consistency_witness :
    RegInv defaultFontRegistry.fonts defaultFontRegistry.categories ∧
    RegInv defaultSchemeRegistry.schemes defaultSchemeRegistry.categories ∧
    (dictContains
      (register_custom_font defaultFontRegistry
        { name := some "New Font", family := some "NF", category := some "serif" }).2.fonts
      (_generate_font_id "New Font") = true ∧
      ∃ l, dictGet?
        (register_custom_font defaultFontRegistry
          { name := some "New Font", family := some "NF", category := some "serif" }).2.categories
        "serif" = some l ∧ l.count (_generate_font_id "New Font") = 1) ∧
    (dictContains
      (create_scheme defaultSchemeRegistry
        { name := some "Test Blue", category := some "modern",
          colors := some [("primary", "#000000")] }).2.schemes
      (_generate_scheme_id "Test Blue") = true ∧
      ∃ l, dictGet?
        (create_scheme defaultSchemeRegistry
          { name := some "Test Blue", category := some "modern",
            colors := some [("primary", "#000000")] }).2.categories
        "modern" = some l ∧ l.count (_generate_scheme_id "Test Blue") = 1) :=
  ⟨c3_registry_index_consistency.1.1 defaultFontRegistry .init,
   c3_registry_index_consistency.2.1 defaultSchemeRegistry .init,
   c3_registry_index_consistency.1.2 defaultFontRegistry
     { name := some "New Font", family := some "NF", category := some "serif" }
     "New Font" "serif" .init rfl rfl (by decide),
   c3_registry_index_consistency.2.2 defaultSchemeRegistry
     { name := some "Test Blue", category := some "modern",
       colors := some [("primary", "#000000")] }
     "Test Blue" "modern" .init rfl rfl (by decide)⟩

/-- **C2**: after a successful create, any later create call (with its
required fields present) whose name derives the same id fails with the
already-exists error and leaves the registry — in particular the entry
stored under that id — entirely unchanged; so at most one of two
colliding calls succeeds, on the font catalog and the color-scheme
catalog alike. -/
theorem c2_create_conflict :
    (∀ (reg : FontRegistry) (d1 d2 : FontData) (n1 n2 : String),
      d1.name = some n1 → d2.name = some n2 →
      d2.family.isSome = true → d2.category.isSome = true →
      (register_custom_font reg d1).1.success = true →
      _generate_font_id n2 = _generate_font_id n1 →
      register_custom_font (register_custom_font reg d1).2 d2 =
        ({ success := false, error := some ("Font " ++ n2 ++ " already exists") },
          (register_custom_font reg d1).2)) ∧
    (∀ (reg : SchemeRegistry) (d1 d2 : SchemeData) (n1 n2 : String),
      d1.name = some n1 → d2.name = some n2 →
      d2.category.isSome = true → d2.colors.isSome = true →
      (create_scheme reg d1).1.success = true →
      _generate_scheme_id n2 = _generate_scheme_id n1 →
      create_scheme (create_scheme reg d1).2 d2 =
        ({ success := false,
           error := some ("Color scheme " ++ n2 ++ " already exists") },
          (create_scheme reg d1).2)) ∧
    (∀ (reg : FontRegistry) (d1 d2 : FontData) (n1 n2 : String),
      d1.name = some n1 → d2.name = some n2 →
      (register_custom_font reg d1).1.success = true →
      _generate_font_id n2 = _generate_font_id n1 →
      (register_custom_font (register_custom_font reg d1).2 d2).1.success = false) ∧
    (∀ (reg : SchemeRegistry) (d1 d2 : SchemeData) (n1 n2 : String),
      d1.name = some n1 → d2.name = some n2 →
      (create_scheme reg d1).1.success = true →
      _generate_scheme_id n2 = _generate_scheme_id n1 →
      (create_scheme (create_scheme reg d1).2 d2).1.success = false) := by
  refine ⟨?_, ?_, ?_, ?_⟩
  · intro reg d1 d2 n1 n2 hn1 hn2 hf2 hc2 hs hid
    obtain ⟨name', category', v, hn', _, _, heq⟩ := register_custom_font_success_state hs
    rw [hn1] at hn'
    obtain rfl : n1 = name' := Option.some.inj hn'
    obtain ⟨f2, hf2e⟩ := Option.isSome_iff_exists.mp hf2
    obtain ⟨c2, hc2e⟩ := Option.isSome_iff_exists.mp hc2
    set reg1 := (register_custom_font reg d1).2 with hreg1
    have hcont : dictContains reg1.fonts (_generate_font_id n2) = true := by
      rw [heq, hid]
      exact dictContains_dictSet_self reg.fonts (_generate_font_id n1) v
    simp only [register_custom_font, hn2, hf2e, hc2e, hcont, if_true]
  · intro reg d1 d2 n1 n2 hn1 hn2 hc2 hcol2 hs hid
    obtain ⟨name', category', v, hn', _, _, heq⟩ := create_scheme_success_state hs
    rw [hn1] at hn'
    obtain rfl : n1 = name' := Option.some.inj hn'
    obtain ⟨c2, hc2e⟩ := Option.isSome_iff_exists.mp hc2
    obtain ⟨col2, hcol2e⟩ := Option.isSome_iff_exists.mp hcol2
    set reg1 := (create_scheme reg d1).2 with hreg1
    have hcont : dictContains reg1.schemes (_generate_scheme_id n2) = true := by
      rw [heq, hid]
      exact dictContains_dictSet_self reg.schemes (_generate_scheme_id n1) v
    simp only [create_scheme, hn2, hc2e, hcol2e, hcont, if_true]
  · intro reg d1 d2 n1 n2 hn1 hn2 hs hid
    obtain ⟨name', category', v, hn', _, _, heq⟩ := register_custom_font_success_state hs
    rw [hn1] at hn'
    obtain rfl : n1 = name' := Option.some.inj hn'
    set reg1 := (register_custom_font reg d1).2 with hreg1
    have hcont : dictContains reg1.fonts (_generate_font_id n2) = true := by
      rw [heq, hid]
      exact dictContains_dictSet_self reg.fonts (_generate_font_id n1) v
    cases hf2 : d2.family with
    | none => simp [register_custom_font, hn2, hf2]
    | some f2 =>
      cases hc2 : d2.category with
      | none => simp [register_custom_font, hn2, hf2, hc2]
      | some c2 => simp [register_custom_font, hn2, hf2, hc2, hcont]
  · intro reg d1 d2 n1 n2 hn1 hn2 hs hid
    obtain ⟨name', category', v, hn', _, _, heq⟩ := create_scheme_success_state hs
    rw [hn1] at hn'
    obtain rfl : n1 = name' := Option.some.inj hn'
    set reg1 := (create_scheme reg d1).2 with hreg1
    have hcont : dictContains reg1.schemes (_generate_scheme_id n2) = true := by
      rw [heq, hid]
      exact dictContains_dictSet_self reg.schemes (_generate_scheme_id n1) v
    cases hc2 : d2.category with
    | none => simp [create_scheme, hn2, hc2]
    | some c2 =>
      cases hcol2 : d2.colors with
      | none => simp [create_scheme, hn2, hc2, hcol2]
      | some col2 => simp [create_scheme, hn2, hc2, hcol2, hcont]

/-- Witness for C2: colliding names on each catalog over the default
registries. -/
theorem c2_create_conflict_witness :
    register_custom_font
      (register_custom_font defaultFontRegistry
        { name := some "My Font", family := some "F", category := some "serif" }).2
      { name := some "my-font", family := some "G", category := some "decorative" } =
      ({ success := false, error := some ("Font " ++ "my-font" ++ " already exists") },
        (register_custom_font defaultFontRegistry
          { name := some "My Font", family := some "F", category := some "serif" }).2) ∧
    create_scheme
      (create_scheme defaultSchemeRegistry
        { name := some "My Scheme", category := some "modern",
          colors := some [("primary", "#FFF")] }).2
      { name := some "MY-SCHEME", category := some "creative",
        colors := some [("primary", "nonsense")] } =
      ({ success := false,
         error := some ("Color scheme " ++ "MY-SCHEME" ++ " already exists") },
        (create_scheme defaultSchemeRegistry
          { name := some "My Scheme", category := some "modern",
            colors := some [("primary", "#FFF")] }).2) ∧
    (register_custom_font
      (register_custom_font defaultFontRegistry
        { name := some "My Font", family := some "F", category := some "serif" }).2
      { name := some "MY FONT" }).1.success = false ∧
    (create_scheme
      (create_scheme defaultSchemeRegistry
        { name := some "My Scheme", category := some "modern",
          colors := some [("primary", "#FFF")] }).2
      { name := some "my scheme" }).1.success = false :=
  ⟨c2_create_conflict.1 defaultFontRegistry
      { name := some "My Font", family := some "F", category := some "serif" }
      { name := some "my-font", family := some "G", category := some "decorative" }
      "My Font" "my-font" rfl rfl rfl rfl (by decide) (by decide),
   c2_create_conflict.2.1 defaultSchemeRegistry
      { name := some "My Scheme", category := some "modern",
        colors := some [("primary", "#FFF")] }
      { name := some "MY-SCHEME", category := some "creative",
        colors := some [("primary", "nonsense")] }
      "My Scheme" "MY-SCHEME" rfl rfl rfl rfl (by decide) (by decide),
   c2_create_conflict.2.2.1 defaultFontRegistry
      { name := some "My Font", family := some "F", category := some "serif" }
      { name := some "MY FONT" }
      "My Font" "MY FONT" rfl rfl (by decide) (by decide),
   c2_create_conflict.2.2.2 defaultSchemeRegistry
      { name := some "My Scheme", category := some "modern",
        colors := some [("primary", "#FFF")] }
      { name := some "my scheme" }
      "My Scheme" "my scheme" rfl rfl (by decide) (by decide)⟩

/-- **C10**: a create call whose `category` is outside the current
category set is accepted (given required fields, a fresh id — and, for
schemes, well-formed colors) and installs a brand-new index list
holding exactly the new id, so the category set reported by the
by-category queries grows at runtime; for both catalogs. -/
theorem c10_dynamic_categories :
    (∀ (reg : FontRegistry) (d : FontData) (name family category : String),
      d.name = some name → d.family = some family → d.category = some category →
      dictContains reg.fonts (_generate_font_id name) = false →
      dictContains reg.categories category = false →
      (register_custom_font reg d).1.success = true ∧
      dictGet? (register_custom_font reg d).2.categories category =
        some [_generate_font_id name] ∧
      dictContains (register_custom_font reg d).2.categories category = true) ∧
    (∀ (reg : SchemeRegistry) (d : SchemeData) (name category : String)
        (colors : List (String × String)),
      d.name = some name → d.category = some category → d.colors = some colors →
      dictContains reg.schemes (_generate_scheme_id name) = false →
      dictContains reg.categories category = false →
      (∀ p ∈ colors, colorFormatOk p.2 = true) →
      (create_scheme reg d).1.success = true ∧
      dictGet? (create_scheme reg d).2.categories category =
        some [_generate_scheme_id name] ∧
      dictContains (create_scheme reg d).2.categories category = true) := by
  constructor
  · intro reg d name family category hn hf hc hfresh hcat
    have hupd : updateCategories reg.categories category (_generate_font_id name) =
        reg.categories ++ [(category, [_generate_font_id name])] := by
      rw [updateCategories, if_neg (by simp [hcat])]
      exact dictSet_fresh_eq_append reg.categories category _ hcat
    have hget : dictGet? (updateCategories reg.categories category (_generate_font_id name))
        category = some [_generate_font_id name] := by
      rw [hupd]
      exact dictGet?_append_fresh reg.categories category _ hcat
    refine ⟨?_, ?_, ?_⟩
    · simp [register_custom_font, hn, hf, hc, hfresh]
    · simp only [register_custom_font, hn, hf, hc, hfresh, Bool.false_eq_true, if_false]
      exact hget
    · simp only [register_custom_font, hn, hf, hc, hfresh, Bool.false_eq_true, if_false]
      rw [dictContains_iff]
      exact List.mem_map.mpr ⟨(category, [_generate_font_id name]),
        mem_of_dictGet?_eq_some hget, rfl⟩
  · intro reg d name category colors hn hc hcol hfresh hcat hcolors
    have hval : (_validate_colors colors).valid = true := by
      rw [(validate_colors_characterization colors).2, List.all_eq_true]
      exact hcolors
    have hupd : updateCategories reg.categories category (_generate_scheme_id name) =
        reg.categories ++ [(category, [_generate_scheme_id name])] := by
      rw [updateCategories, if_neg (by simp [hcat])]
      exact dictSet_fresh_eq_append reg.categories category _ hcat
    have hget : dictGet? (updateCategories reg.categories category (_generate_scheme_id name))
        category = some [_generate_scheme_id name] := by
      rw [hupd]
      exact dictGet?_append_fresh reg.categories category _ hcat
    refine ⟨?_, ?_, ?_⟩
    · simp [create_scheme, hn, hc, hcol, hfresh, hval]
    · simp only [create_scheme, hn, hc, hcol, hfresh, hval, Bool.false_eq_true, if_false,
        Bool.not_true]
      exact hget
    · simp only [create_scheme, hn, hc, hcol, hfresh, hval, Bool.false_eq_true, if_false,
        Bool.not_true]
      rw [dictContains_iff]
      exact List.mem_map.mpr ⟨(category, [_generate_scheme_id name]),
        mem_of_dictGet?_eq_some hget, rfl⟩

/-- Witness for C10: a brand-new category on each default catalog. -/
theorem c10_dynamic_categories_witness :
    ((register_custom_font defaultFontRegistry
        { name := some "Fancy Font", family := some "FF",
          category := some "blackletter" }).1.success = true ∧
      dictGet? (register_custom_font defaultFontRegistry
        { name := some "Fancy Font", family := some "FF",
          category := some "blackletter" }).2.categories "blackletter" =
        some [_generate_font_id "Fancy Font"] ∧
      dictContains (register_custom_font defaultFontRegistry
        { name := some "Fancy Font", family := some "FF",
          category := some "blackletter" }).2.categories "blackletter" = true) ∧
    ((create_scheme defaultSchemeRegistry
        { name := some "Neon Night", category := some "vaporwave",
          colors := some [("primary", "#FF00FF")] }).1.success = true ∧
      dictGet? (create_scheme defaultSchemeRegistry
        { name := some "Neon Night", category := some "vaporwave",
          colors := some [("primary", "#FF00FF")] }).2.categories "vaporwave" =
        some [_generate_scheme_id "Neon Night"] ∧
      dictContains (create_scheme defaultSchemeRegistry
        { name := some "Neon Night", category := some "vaporwave",
          colors := some [("primary", "#FF00FF")] }).2.categories "vaporwave" = true) :=
  ⟨c10_dynamic_categories.1 defaultFontRegistry
      { name := some "Fancy Font", family := some "FF", category := some "blackletter" }
      "Fancy Font" "FF" "blackletter" rfl rfl rfl (by decide) (by decide),
   c10_dynamic_categories.2 defaultSchemeRegistry
      { name := some "Neon Night", category := some "vaporwave",
        colors := some [("primary", "#FF00FF")] }
      "Neon Night" "vaporwave" [("primary", "#FF00FF")] rfl rfl rfl (by decide) (by decide)
      (by decide)⟩

/-- **C7 (counterexample)**: `create_scheme` accepts a colors mapping
with none of the ten required roles — an empty mapping passes the
required-field check (the `colors` key is present) and the per-value
format check vacuously, so creation succeeds. -/
theorem c7_counterexample_empty_colors_accepted :
    (create_scheme defaultSchemeRegistry
      { name := some "Empty Roles", category := some "modern",
        colors := some [] }).1.success = true ∧
    dictContains ([] : List (String × String)) "primary" = false :=
  ⟨by decide, rfl⟩

/-- **C7 (amended)**: `create_scheme` requires only that the `name`,
`category` and `colors` fields are present, the derived id is fresh,
and every provided color value is well-formed; it never checks which
semantic roles appear, so a mapping missing required roles (even the
empty one) is accepted. -/
theorem c7_create_scheme_roles_not_enforced :
    ∀ (reg : SchemeRegistry) (d : SchemeData) (name category : String)
      (colors : List (String × String)),
      d.name = some name → d.category = some category → d.colors = some colors →
      dictContains reg.schemes (_generate_scheme_id name) = false →
      (∀ p ∈ colors, colorFormatOk p.2 = true) →
      (create_scheme reg d).1.success = true := by
  intro reg d name category colors hn hc hcol hfresh hcolors
  have hval : (_validate_colors colors).valid = true := by
    rw [(validate_colors_characterization colors).2, List.all_eq_true]
    exact hcolors
  simp [create_scheme, hn, hc, hcol, hfresh, hval]

/-- Witness for the amended C7 at the role-free concrete input. -/
theorem c7_create_scheme_roles_not_enforced_witness :
    (create_scheme defaultSchemeRegistry
      { name := some "Role Free", category := some "modern",
        colors := some [("tint", "#ABC")] }).1.success = true :=
  c7_create_scheme_roles_not_enforced defaultSchemeRegistry
    { name := some "Role Free", category := some "modern",
      colors := some [("tint", "#ABC")] }
    "Role Free" "modern" [("tint", "#ABC")] rfl rfl rfl (by decide) (by decide)

/-- **C8 (counterexample)**: `get_font_details` on a registered font
returns the record but leaves the registry — including the
`download_count` of the hit record — completely unchanged, so the
get-by-name operation of the font catalog does not increment its
counter (that happens only in `get_font_path`). -/
theorem c8_counterexample_font_counter_not_incremented :
    (get_font_details defaultFontRegistry "Arial").1.isSome = true ∧
    (get_font_details defaultFontRegistry "Arial").2 = defaultFontRegistry ∧
    (dictGet? (get_font_details defaultFontRegistry "Arial").2.fonts
        (_generate_font_id "Arial")).map (fun f => f.download_count) = some 0 ∧
    ¬ (dictGet? (get_font_details defaultFontRegistry "Arial").2.fonts
        (_generate_font_id "Arial")).map (fun f => f.download_count) = some 1 :=
  ⟨rfl, rfl, by decide, by decide⟩

/-- **C8 (amended)**: on a hit, each get-by-name returns a copy of the
record augmented with derived URLs; `get_scheme` and `get_template`
additionally increment the stored record's usage counter (leaving every
other entry unchanged), while `get_font_details` leaves the registry
untouched; on a miss each returns `None` with the registry unchanged. -/
theorem c8_get_by_name_behavior :
    (∀ (reg : FontRegistry) (n : String) (f : FontRecord),
      dictGet? reg.fonts (_generate_font_id n) = some f →
      get_font_details reg n =
        (some { info := f,
                download_url := "/api/fonts/" ++ n ++ "/download",
                preview_url := "/api/fonts/" ++ n ++ "/preview" }, reg)) ∧
    (∀ (reg : FontRegistry) (n : String),
      dictGet? reg.fonts (_generate_font_id n) = none →
      get_font_details reg n = (none, reg)) ∧
    (∀ (reg : SchemeRegistry) (n : String) (s : SchemeRecord),
      dictGet? reg.schemes (_generate_scheme_id n) = some s →
      (get_scheme reg n).1 =
        some { info := s,
               preview_url := "/api/color-schemes/" ++ n ++ "/preview",
               css_url := "/api/color-schemes/" ++ n ++ "/css" } ∧
      dictGet? (get_scheme reg n).2.schemes (_generate_scheme_id n) =
        some { s with usage_count := s.usage_count + 1 } ∧
      ∀ j, j ≠ _generate_scheme_id n →
        dictGet? (get_scheme reg n).2.schemes j = dictGet? reg.schemes j) ∧
    (∀ (reg : SchemeRegistry) (n : String),
      dictGet? reg.schemes (_generate_scheme_id n) = none →
      get_scheme reg n = (none, reg)) ∧
    (∀ (reg : TemplateRegistry) (n : String) (t : TemplateRecord),
      dictGet? reg.templates (_generate_template_id n) = some t →
      (get_template reg n).1 =
        some { info := t,
               download_url := "/api/templates/" ++ n ++ "/download",
               preview_url := "/api/templates/" ++ n ++ "/preview" } ∧
      dictGet? (get_template reg n).2.templates (_generate_template_id n) =
        some { t with usage_count := t.usage_count + 1 } ∧
      ∀ j, j ≠ _generate_template_id n →
        dictGet? (get_template reg n).2.templates j = dictGet? reg.templates j) ∧
    (∀ (reg : TemplateRegistry) (n : String),
      dictGet? reg.templates (_generate_template_id n) = none →
      get_template reg n = (none, reg)) := by
  refine ⟨?_, ?_, ?_, ?_, ?_, ?_⟩
  · intro reg n f h
    simp [get_font_details, h]
  · intro reg n h
    simp [get_font_details, h]
  · intro reg n s h
    refine ⟨by simp [get_scheme, h], ?_, ?_⟩
    · simp only [get_scheme, h]
      rw [bumpSchemeUsage, dictGet?_dictModifyAt_self, h]
      rfl
    · intro j hj
      simp only [get_scheme, h]
      rw [bumpSchemeUsage, dictGet?_dictModifyAt_ne _ _ _ _ hj]
  · intro reg n h
    simp [get_scheme, h]
  · intro reg n t h
    refine ⟨by simp [get_template, h], ?_, ?_⟩
    · simp only [get_template, h]
      rw [bumpTemplateUsage, dictGet?_dictModifyAt_self, h]
      rfl
    · intro j hj
      simp only [get_template, h]
      rw [bumpTemplateUsage, dictGet?_dictModifyAt_ne _ _ _ _ hj]
  · intro reg n h
    simp [get_template, h]

/-- Witness for the amended C8: a miss and a hit on each catalog over
the default registries. -/
theorem c8_get_by_name_behavior_witness :
    get_font_details defaultFontRegistry "No Such Font" =
      (none, defaultFontRegistry) ∧
    get_scheme defaultSchemeRegistry "No Such Scheme" =
      (none, defaultSchemeRegistry) ∧
    get_template defaultTemplateRegistry "No Such Template" =
      (none, defaultTemplateRegistry) ∧
    (get_scheme defaultSchemeRegistry "Academic Blue").1 =
      some { info := (dictGet? defaultSchemeRegistry.schemes
                (_generate_scheme_id "Academic Blue")).get (by decide),
             preview_url := "/api/color-schemes/" ++ "Academic Blue" ++ "/preview",
             css_url := "/api/color-schemes/" ++ "Academic Blue" ++ "/css" } ∧
    (get_template defaultTemplateRegistry "Markdown Academic").1 =
      some { info := (dictGet? defaultTemplateRegistry.templates
                (_generate_template_id "Markdown Academic")).get (by decide),
             download_url := "/api/templates/" ++ "Markdown Academic" ++ "/download",
             preview_url := "/api/templates/" ++ "Markdown Academic" ++ "/preview" } ∧
    get_font_details defaultFontRegistry "Georgia" =
      (some { info := (dictGet? defaultFontRegistry.fonts
                (_generate_font_id "Georgia")).get (by decide),
              download_url := "/api/fonts/" ++ "Georgia" ++ "/download",
              preview_url := "/api/fonts/" ++ "Georgia" ++ "/preview" },
        defaultFontRegistry) :=
  ⟨c8_get_by_name_behavior.2.1 defaultFontRegistry "No Such Font" (by decide),
   c8_get_by_name_behavior.2.2.2.1 defaultSchemeRegistry "No Such Scheme" (by decide),
   c8_get_by_name_behavior.2.2.2.2.2 defaultTemplateRegistry "No Such Template" (by decide),
   (c8_get_by_name_behavior.2.2.1 defaultSchemeRegistry "Academic Blue" _
      (Option.some_get _).symm).1,
   (c8_get_by_name_behavior.2.2.2.2.1 defaultTemplateRegistry "Markdown Academic" _
      (Option.some_get _).symm).1,
   c8_get_by_name_behavior.1 defaultFontRegistry "Georgia" _
      (Option.some_get _).symm⟩

/-! ## Asset validator lemmas (C1, C4) -/

theorem validate_fonts_valid_iff (fs : String → Bool) (fsize : String → Nat)
    (l : List AssetDescriptor) :
    (_validate_fonts fs fsize l).valid = false ↔
      (_validate_fonts fs fsize l).errors ≠ [] := by
  induction l with
  | nil => simp [_validate_fonts]
  | cons f rest ih =>
    cases hp : f.path with
    | none => simp [_validate_fonts, hp]
    | some path =>
      cases hfs : fs path with
      | false => simp [_validate_fonts, hp, hfs]
      | true =>
        cases hfmt : pyLowerEndsWithAny path [".ttf", ".otf", ".woff", ".woff2"] with
        | false => simp [_validate_fonts, hp, hfs, hfmt]
        | true => simpa [_validate_fonts, hp, hfs, hfmt] using ih

theorem validate_color_schemes_valid_iff (fs : String → Bool)
    (jsonColors : String → Option Nat) (l : List AssetDescriptor) :
    (_validate_color_schemes fs jsonColors l).valid = false ↔
      (_validate_color_schemes fs jsonColors l).errors ≠ [] := by
  induction l with
  | nil => simp [_validate_color_schemes]
  | cons s rest ih =>
    cases hp : s.path with
    | none => simp [_validate_color_schemes, hp]
    | some path =>
      cases hfs : fs path with
      | false => simp [_validate_color_schemes, hp, hfs]
      | true =>
        cases hj : jsonColors path with
        | none => simp [_validate_color_schemes, hp, hfs, hj]
        | some n => simpa [_validate_color_schemes, hp, hfs, hj] using ih

theorem validate_templates_valid_eq (fs : String → Bool) (fsize : String → Nat)
    (l : List AssetDescriptor) :
    (_validate_templates fs fsize l).valid =
      l.all fun t => match t.path with | some p => fs p | none => false := by
  induction l with
  | nil => simp [_validate_templates]
  | cons t rest ih =>
    cases hp : t.path with
    | none => simp [_validate_templates, hp]
    | some path =>
      cases hfs : fs path with
      | false => simp [_validate_templates, hp, hfs]
      | true =>
        cases hfmt : pyLowerEndsWithAny path [".html", ".css", ".js", ".tex", ".md"] with
        | false => simp [_validate_templates, hp, hfs, hfmt, ih]
        | true => simp [_validate_templates, hp, hfs, hfmt, ih]

theorem validate_templates_errors_of_invalid (fs : String → Bool) (fsize : String → Nat)
    (l : List AssetDescriptor) :
    (_validate_templates fs fsize l).valid = false →
      (_validate_templates fs fsize l).errors ≠ [] := by
  induction l with
  | nil => simp [_validate_templates]
  | cons t rest ih =>
    cases hp : t.path with
    | none => simp [_validate_templates, hp]
    | some path =>
      cases hfs : fs path with
      | false => simp [_validate_templates, hp, hfs]
      | true =>
        cases hfmt : pyLowerEndsWithAny path [".html", ".css", ".js", ".tex", ".md"] with
        | false => simp [_validate_templates, hp, hfs, hfmt]
        | true => simpa [_validate_templates, hp, hfs, hfmt] using ih

/-- **C4**: template validation flips `valid` only for a missing file;
an existing file with an extension outside html/css/js/tex/md adds its
own error message while leaving `valid` untouched, so one such
descriptor alone yields `valid = true` with a non-empty error list. -/
theorem c4_template_advisory_asymmetry (fs : String → Bool) (fsize : String → Nat) :
    (∀ ts, (_validate_templates fs fsize ts).valid =
      ts.all fun t => match t.path with | some p => fs p | none => false) ∧
    (∀ (t : AssetDescriptor) (rest : List AssetDescriptor) (p : String),
      t.path = some p → fs p = true →
      pyLowerEndsWithAny p [".html", ".css", ".js", ".tex", ".md"] = false →
      (_validate_templates fs fsize (t :: rest)).valid =
        (_validate_templates fs fsize rest).valid ∧
      (_validate_templates fs fsize (t :: rest)).errors =
        ("Unknown template format: " ++ p) :: (_validate_templates fs fsize rest).errors) ∧
    (∀ (t : AssetDescriptor) (p : String),
      t.path = some p → fs p = true →
      pyLowerEndsWithAny p [".html", ".css", ".js", ".tex", ".md"] = false →
      (_validate_templates fs fsize [t]).valid = true ∧
      (_validate_templates fs fsize [t]).errors = ["Unknown template format: " ++ p]) := by
  refine ⟨validate_templates_valid_eq fs fsize, ?_, ?_⟩
  · intro t rest p hp hfs hfmt
    constructor <;> simp [_validate_templates, hp, hfs, hfmt]
  · intro t p hp hfs hfmt
    constructor <;> simp [_validate_templates, hp, hfs, hfmt]

/-- Witness for C4: one existing `.xyz` template descriptor. -/
theorem c4_template_advisory_asymmetry_witness :
    (_validate_templates (fun p => p == "t.xyz") (fun _ => 7)
      [{ name := some "T", path := some "t.xyz" }]).valid = true ∧
    (_validate_templates (fun p => p == "t.xyz") (fun _ => 7)
      [{ name := some "T", path := some "t.xyz" }]).errors =
      ["Unknown template format: " ++ "t.xyz"] :=
  (c4_template_advisory_asymmetry (fun p => p == "t.xyz") (fun _ => 7)).2.2
    { name := some "T", path := some "t.xyz" } "t.xyz" rfl (by decide) (by decide)

theorem invalidErrors_of_all_true {χ : Type} (o : Option (KindValidation χ))
    (h : o.all (·.valid) = true) : invalidErrors o = [] := by
  cases o with
  | none => rfl
  | some v =>
    simp only [Option.all_some] at h
    simp [invalidErrors, h]

theorem invalidErrors_ne_nil_of_all_false {χ : Type} (o : Option (KindValidation χ))
    (herr : ∀ v, o = some v → v.valid = false → v.errors ≠ [])
    (h : o.all (·.valid) = false) : invalidErrors o ≠ [] := by
  cases o with
  | none => simp [Option.all] at h
  | some v =>
    simp only [Option.all_some] at h
    simpa [invalidErrors, h] using herr v rfl h

/-- **C1 (counterexample)**: an existing template file with an unknown
extension makes `validate_assets` return `valid = true` with empty
top-level `errors` while the `asset_checks` templates report carries an
error — so `valid = true` does not imply zero errors across the
per-kind reports. -/
theorem c1_counterexample_advisory_template_error :
    (validate_assets (fun p => p == "t.xyz") (fun _ => 7) (fun _ => none)
      { templates := some [{ name := some "T", path := some "t.xyz" }] }).valid = true ∧
    (validate_assets (fun p => p == "t.xyz") (fun _ => 7) (fun _ => none)
      { templates := some [{ name := some "T", path := some "t.xyz" }] }).errors = [] ∧
    (validate_assets (fun p => p == "t.xyz") (fun _ => 7) (fun _ => none)
      { templates := some [{ name := some "T", path := some "t.xyz" }] }).template_checks.map
      (fun v => v.errors) = some ["Unknown template format: t.xyz"] :=
  ⟨rfl, rfl, rfl⟩

/-- **C1 (amended)**: the top-level `valid` is false iff the top-level
`errors` list is non-empty, and `valid = true` guarantees zero errors
in the fonts and color-schemes reports; the templates report may still
carry advisory format errors (C4's asymmetry), which neither reach the
top-level `errors` nor affect `valid`. -/
theorem c1_valid_iff_errors_nonempty (fs : String → Bool) (fsize : String → Nat)
    (jsonColors : String → Option Nat) (cfg : AssetConfig) :
    ((validate_assets fs fsize jsonColors cfg).valid = false ↔
      (validate_assets fs fsize jsonColors cfg).errors ≠ []) ∧
    ((validate_assets fs fsize jsonColors cfg).valid = true →
      (∀ v, (validate_assets fs fsize jsonColors cfg).font_checks = some v →
        v.errors = []) ∧
      (∀ v, (validate_assets fs fsize jsonColors cfg).scheme_checks = some v →
        v.errors = [])) := by
  simp only [validate_assets]
  set F := cfg.fonts.map (_validate_fonts fs fsize) with hF
  set C := cfg.color_schemes.map (_validate_color_schemes fs jsonColors) with hC
  set T := cfg.templates.map (_validate_templates fs fsize) with hT
  have hFiff : ∀ v, F = some v → (v.valid = false ↔ v.errors ≠ []) := by
    intro v hv
    cases hfonts : cfg.fonts with
    | none => rw [hF, hfonts] at hv; simp at hv
    | some ds =>
      rw [hF, hfonts, Option.map_some', Option.some.injEq] at hv
      rw [← hv]
      exact validate_fonts_valid_iff fs fsize ds
  have hCiff : ∀ v, C = some v → (v.valid = false ↔ v.errors ≠ []) := by
    intro v hv
    cases hcs : cfg.color_schemes with
    | none => rw [hC, hcs] at hv; simp at hv
    | some ds =>
      rw [hC, hcs, Option.map_some', Option.some.injEq] at hv
      rw [← hv]
      exact validate_color_schemes_valid_iff fs jsonColors ds
  have hTerr : ∀ v, T = some v → v.valid = false → v.errors ≠ [] := by
    intro v hv
    cases hts : cfg.templates with
    | none => rw [hT, hts] at hv; simp at hv
    | some ds =>
      rw [hT, hts, Option.map_some', Option.some.injEq] at hv
      rw [← hv]
      exact validate_templates_errors_of_invalid fs fsize ds
  have key : (F.all (·.valid) && C.all (·.valid) && T.all (·.valid)) = true ↔
      invalidErrors F ++ invalidErrors C ++ invalidErrors T = [] := by
    constructor
    · intro h
      simp only [Bool.and_eq_true] at h
      rw [invalidErrors_of_all_true F h.1.1, invalidErrors_of_all_true C h.1.2,
        invalidErrors_of_all_true T h.2]
      rfl
    · intro h
      simp only [List.append_eq_nil] at h
      simp only [Bool.and_eq_true]
      refine ⟨⟨?_, ?_⟩, ?_⟩
      · cases hA : F.all (·.valid) with
        | true => rfl
        | false =>
          exact absurd h.1.1
            (invalidErrors_ne_nil_of_all_false F (fun v hv => (hFiff v hv).mp) hA)
      · cases hB : C.all (·.valid) with
        | true => rfl
        | false =>
          exact absurd h.1.2
            (invalidErrors_ne_nil_of_all_false C (fun v hv => (hCiff v hv).mp) hB)
      · cases hD : T.all (·.valid) with
        | true => rfl
        | false => exact absurd h.2 (invalidErrors_ne_nil_of_all_false T hTerr hD)
  constructor
  · constructor
    · intro hfalse heq
      rw [key.mpr heq] at hfalse
      simp at hfalse
    · intro hne
      cases hval : (F.all (·.valid) && C.all (·.valid) && T.all (·.valid)) with
      | false => rfl
      | true => exact absurd (key.mp hval) hne
  · intro htrue
    simp only [Bool.and_eq_true] at htrue
    constructor
    · intro v hv
      have hall := htrue.1.1
      rw [hv, Option.all_some] at hall
      by_contra hne
      have := (hFiff v hv).mpr hne
      rw [this] at hall
      simp at hall
    · intro v hv
      have hall := htrue.1.2
      rw [hv, Option.all_some] at hall
      by_contra hne
      have := (hCiff v hv).mpr hne
      rw [this] at hall
      simp at hall

/-- Witness for the amended C1: a one-font configuration whose file
exists with a valid extension, so `valid = true` and the fonts report
is error-free. -/
theorem c1_valid_iff_errors_nonempty_witness :
    ((validate_assets (fun p => p == "a.ttf") (fun _ => 3) (fun _ => none)
        { fonts := some [{ name := some "A", path := some "a.ttf" }] }).valid = false ↔
      (validate_assets (fun p => p == "a.ttf") (fun _ => 3) (fun _ => none)
        { fonts := some [{ name := some "A", path := some "a.ttf" }] }).errors ≠ []) ∧
    (_validate_fonts (fun p => p == "a.ttf") (fun _ => 3)
      [{ name := some "A", path := some "a.ttf" }]).errors = [] :=
  ⟨(c1_valid_iff_errors_nonempty (fun p => p == "a.ttf") (fun _ => 3) (fun _ => none)
      { fonts := some [{ name := some "A", path := some "a.ttf" }] }).1,
   ((c1_valid_iff_errors_nonempty (fun p => p == "a.ttf") (fun _ => 3) (fun _ => none)
      { fonts := some [{ name := some "A", path := some "a.ttf" }] }).2 rfl).1
     (_validate_fonts (fun p => p == "a.ttf") (fun _ => 3)
       [{ name := some "A", path := some "a.ttf" }]) rfl⟩

/-- **C9**: a bundle request including only fonts reports zero
color-scheme and template counts, a fonts count equal to the number of
the style's resolved fonts whose file exists, empty non-font manifest
lists, and unconditional success — missing files are silently skipped,
with no error or warning anywhere in the result. -/
theorem c9_bundle_font_only_counts (fs : String → Bool) (bundle_id : String)
    (cfg : BundleConfig)
    (hf : cfg.include_fonts = some true)
    (hc : cfg.include_color_schemes = some false)
    (ht : cfg.include_templates = some false) :
    (create_bundle fs bundle_id cfg).asset_count.color_schemes = 0 ∧
    (create_bundle fs bundle_id cfg).asset_count.templates = 0 ∧
    (create_bundle fs bundle_id cfg).asset_count.fonts =
      ((_get_style_fonts (cfg.style.getD "default")).filter fun a => fs a.path).length ∧
    (create_bundle fs bundle_id cfg).manifest_color_schemes = [] ∧
    (create_bundle fs bundle_id cfg).manifest_templates = [] ∧
    (create_bundle fs bundle_id cfg).success = true := by
  simp [create_bundle, hf, hc, ht]

/-- Witness for C9: the `ieee` style with only the Times New Roman file
on disk. -/
theorem c9_bundle_font_only_counts_witness :
    (create_bundle (fun p => p == "fonts/times-new-roman.ttf") "abc123def456"
      { style := some "ieee", include_fonts := some true,
        include_color_schemes := some false,
        include_templates := some false }).asset_count.color_schemes = 0 ∧
    (create_bundle (fun p => p == "fonts/times-new-roman.ttf") "abc123def456"
      { style := some "ieee", include_fonts := some true,
        include_color_schemes := some false,
        include_templates := some false }).asset_count.templates = 0 ∧
    (create_bundle (fun p => p == "fonts/times-new-roman.ttf") "abc123def456"
      { style := some "ieee", include_fonts := some true,
        include_color_schemes := some false,
        include_templates := some false }).asset_count.fonts =
      ((_get_style_fonts
        (({ style := some "ieee", include_fonts := some true,
            include_color_schemes := some false,
            include_templates := some false } : BundleConfig).style.getD "default")).filter
        fun a => (fun p => p == "fonts/times-new-roman.ttf") a.path).length ∧
    (create_bundle (fun p => p == "fonts/times-new-roman.ttf") "abc123def456"
      { style := some "ieee", include_fonts := some true,
        include_color_schemes := some false,
        include_templates := some false }).manifest_color_schemes = [] ∧
    (create_bundle (fun p => p == "fonts/times-new-roman.ttf") "abc123def456"
      { style := some "ieee", include_fonts := some true,
        include_color_schemes := some false,
        include_templates := some false }).manifest_templates = [] ∧
    (create_bundle (fun p => p == "fonts/times-new-roman.ttf") "abc123def456"
      { style := some "ieee", include_fonts := some true,
        include_color_schemes := some false,
        include_templates := some false }).success = true :=
  c9_bundle_font_only_counts (fun p => p == "fonts/times-new-roman.ttf") "abc123def456"
    { style := some "ieee", include_fonts := some true,
      include_color_schemes := some false, include_templates := some false }
    rfl rfl rfl

end StyleAssets
